import Mathlib

/-!
# Device inventory service: persistence layer and request handlers

A shallow embedding of `src/database/database_manager.cpp` and
`src/server/server_manager.cpp`.

* The SQLite database behind the connection handle is a record of two row
  lists together with the `sqlite_sequence` counters of the two
  `AUTOINCREMENT` keys and the `foreign_keys` pragma.
* A prepared statement is the statement text together with the parameter
  bindings made so far; `sqlite3_step` interprets the ten fixed statement
  texts of the program over the row lists, enforcing the constraints of the
  schema of `createTablesIfNeeded` (`NOT NULL`, `UNIQUE`, `ON DELETE RESTRICT`).
* Text is bound as a C string: `sqlite3_bind_text` with length -1 binds the
  characters before the first NUL. Rowids are 64-bit: an `AUTOINCREMENT`
  insert is refused (`SQLITE_FULL`) once the largest rowid has been used.
  C++ `int` values are integers, and reading a column with
  `sqlite3_column_int` reduces it to 32 bits.
-/

namespace RestApi

/-! ## C++ integers -/

/-- Smallest value of a C++ `int`. -/
def INT_MIN : Int := -2147483648

/-- Largest value of a C++ `int`. -/
def INT_MAX : Int := 2147483647

/-- Largest rowid of an SQLite table (the largest 64-bit signed integer). -/
def INT64_MAX : Int := 9223372036854775807

/-- Membership of an integer in the range of a C++ `int`. -/
def isInt (v : Int) : Prop := INT_MIN ≤ v ∧ v ≤ INT_MAX

instance (v : Int) : Decidable (isInt v) := by
  unfold isInt; exact inferInstance

/-- Reduction of a 64-bit integer to a C++ `int` (the low 32 bits, signed). -/
def toInt32 (v : Int) : Int := (v + 2147483648) % 4294967296 - 2147483648

/-! ## `utilities/metadata.hpp` -/

/-- The `Device` struct. -/
structure Device where
  id : Int
  name : String
  type : String
  serial_number : String
  creation_date : String
  location_id : Int
deriving DecidableEq, Repr

/-- The `Location` struct. -/
structure Location where
  id : Int
  name : String
  type : String
deriving DecidableEq, Repr

/-! ## The SQLite database -/

/-- A row of table `devices`; `location_id` is the only nullable column. -/
structure DeviceRow where
  id : Int
  name : String
  type : String
  serial_number : String
  creation_date : String
  location_id : Option Int
deriving DecidableEq, Repr

/-- A row of table `locations`. -/
structure LocationRow where
  id : Int
  name : String
  type : String
deriving DecidableEq, Repr

/-- The database behind an open `sqlite3*` handle. `tables` records whether the
two tables of `createTablesIfNeeded` exist; the two `seq` fields are the
`sqlite_sequence` entries kept for the `AUTOINCREMENT` keys. Rows are listed
in scan order. -/
structure Sqlite3 where
  foreign_keys : Bool
  tables : Bool
  devices : List DeviceRow
  locations : List LocationRow
  devices_seq : Int
  locations_seq : Int
deriving DecidableEq, Repr

/-- Result codes of the SQLite calls used by the program. -/
inductive ResultCode where
  | SQLITE_OK
  | SQLITE_ERROR
  | SQLITE_CONSTRAINT
  | SQLITE_FULL
  | SQLITE_MISMATCH
  | SQLITE_MISUSE
  | SQLITE_RANGE
  | SQLITE_ROW
  | SQLITE_DONE
deriving DecidableEq, Repr

/-- A value bound to a statement parameter. -/
inductive SqlValue where
  | null
  | integer (n : Int)
  | text (s : String)
deriving DecidableEq, Repr

/-- The statement texts the program prepares. Every constructor but the last
is one of the string constants of `database_manager.cpp`; `dynamic` carries
the text assembled by `getDevicesWithFilters`. -/
inductive Sql where
  | insertDevice
  | selectDevice
  | selectAllDevices
  | updateDevice
  | deleteDevice
  | insertLocation
  | selectLocation
  | selectAllLocations
  | updateLocation
  | deleteLocation
  | dynamic (text : String)
deriving DecidableEq, Repr

/-- The text of a statement, as written in the source. -/
def Sql.text : Sql → String
  | .insertDevice => "INSERT INTO Devices (name, type, serial_number, creation_date, location_id) VALUES (?, ?, ?, ?, ?);"
  | .selectDevice => "SELECT * FROM Devices WHERE id = ?;"
  | .selectAllDevices => "SELECT * FROM Devices;"
  | .updateDevice => "UPDATE Devices SET name = ?, type = ?, serial_number = ?, creation_date = ?, location_id = ? WHERE id = ?;"
  | .deleteDevice => "DELETE FROM Devices WHERE id = ?;"
  | .insertLocation => "INSERT INTO Locations (name, type) VALUES (?, ?);"
  | .selectLocation => "SELECT * FROM Locations WHERE id = ?;"
  | .selectAllLocations => "SELECT * FROM Locations;"
  | .updateLocation => "UPDATE Locations SET name = ?, type = ? WHERE id = ?;"
  | .deleteLocation => "DELETE FROM Locations WHERE id = ?;"
  | .dynamic text => text

/-- Number of `?` placeholders of a statement. -/
def Sql.placeholders (sql : Sql) : Nat := (sql.text.toList.filter (fun c => c == '?')).length

/-- A prepared statement: its text and the bindings made so far, the most
recent first. A placeholder that was never bound reads as NULL. -/
structure Stmt where
  sql : Sql
  bound : List (Nat × SqlValue)
deriving DecidableEq, Repr

/-- The value a placeholder holds when the statement is stepped. -/
def Stmt.param (stmt : Stmt) (i : Nat) : SqlValue :=
  match stmt.bound.find? (fun b => b.1 == i) with
  | some b => b.2
  | none => SqlValue.null

/-- Binding of a value to placeholder `i` (1-based); an index outside the
placeholders of the statement is refused (`SQLITE_RANGE`) and binds nothing. -/
def Stmt.bind (stmt : Stmt) (i : Nat) (v : SqlValue) : Stmt :=
  if 1 ≤ i ∧ i ≤ stmt.sql.placeholders then { stmt with bound := (i, v) :: stmt.bound } else stmt

/-- The C string `s.c_str()` as a callee that is given no length reads it: the
characters before the first NUL. -/
def c_str (s : String) : String := String.mk (s.toList.takeWhile (fun c => c != Char.ofNat 0))

/-- A string without a NUL character: it is its own C string. -/
def isCString (s : String) : Prop := c_str s = s

instance (s : String) : Decidable (isCString s) := by
  unfold isCString; exact inferInstance

/-- The call `sqlite3_bind_text(stmt, i, s.c_str(), -1, SQLITE_STATIC)`: with
the length -1 SQLite binds the text up to the first NUL. -/
def sqlite3_bind_text (stmt : Stmt) (i : Nat) (s : String) : Stmt :=
  stmt.bind i (SqlValue.text (c_str s))

/-- The call `sqlite3_bind_int(stmt, i, v)`. -/
def sqlite3_bind_int (stmt : Stmt) (i : Nat) (v : Int) : Stmt := stmt.bind i (SqlValue.integer v)

/-- Value stored in a `TEXT NOT NULL` column: `none` for NULL (a constraint
violation), the decimal text for an integer (TEXT affinity). -/
def SqlValue.asText : SqlValue → Option String
  | .null => none
  | .integer n => some (toString n)
  | .text s => some s

/-- Value stored in the nullable `INTEGER` column `location_id`: NULL or an
integer. The program binds no text to it; a text value there is outside the
embedding (`none`). -/
def SqlValue.asInteger : SqlValue → Option (Option Int)
  | .null => some none
  | .integer n => some (some n)
  | .text _ => none

/-- The largest rowid an `AUTOINCREMENT` table holds or has ever held: `seq` is
its `sqlite_sequence` entry, `ids` are the rowids of its rows. -/
def lastRowid (seq : Int) (ids : List Int) : Int := ids.foldl max seq

/-- The rowid given to a new row of an `AUTOINCREMENT` table: one more than
the largest rowid the table holds or has ever held; none once the largest
rowid there is, `INT64_MAX`, has been used (the insert fails with
`SQLITE_FULL`). -/
def nextRowid (seq : Int) (ids : List Int) : Option Int :=
  if lastRowid seq ids < INT64_MAX then some (lastRowid seq ids + 1) else none

/-- The foreign key of `devices`: a NULL `location_id` references nothing, any
other value has to be the id of a location row. -/
def fkHolds (locations : List LocationRow) (loc : Option Int) : Bool :=
  match loc with
  | none => true
  | some l => locations.any (fun r => r.id == l)

/-- The comparison `id = ?` of a `WHERE` clause: true only for an integer
parameter equal to the rowid (a comparison with NULL is never true). -/
def idMatches (p : SqlValue) (id : Int) : Bool :=
  match p with
  | .integer n => n == id
  | _ => false

/-- Stepping `INSERT INTO Devices (...) VALUES (?, ?, ?, ?, ?)`: the four text
columns are `NOT NULL`, `serial_number` is `UNIQUE`, and with foreign keys
enforced `location_id` has to reference a location; the new rowid is chosen
first and the insert is refused when there is none left. A refused statement
changes nothing. -/
def stepInsertDevice (db : Sqlite3) (stmt : Stmt) : ResultCode × Sqlite3 :=
  match (stmt.param 1).asText, (stmt.param 2).asText, (stmt.param 3).asText,
      (stmt.param 4).asText with
  | some name, some type, some serial_number, some creation_date =>
    match (stmt.param 5).asInteger with
    | none => (ResultCode.SQLITE_MISMATCH, db)
    | some location_id =>
      match nextRowid db.devices_seq (db.devices.map (fun r => r.id)) with
      | none => (ResultCode.SQLITE_FULL, db)
      | some id =>
        if db.devices.any (fun r => r.serial_number == serial_number) then
          (ResultCode.SQLITE_CONSTRAINT, db)
        else if db.foreign_keys && !fkHolds db.locations location_id then
          (ResultCode.SQLITE_CONSTRAINT, db)
        else
          (ResultCode.SQLITE_DONE,
            { db with
              devices := db.devices ++
                [DeviceRow.mk id name type serial_number creation_date location_id]
              devices_seq := id })
  | _, _, _, _ => (ResultCode.SQLITE_CONSTRAINT, db)

/-- Stepping `UPDATE Devices SET name = ?, type = ?, serial_number = ?,
creation_date = ?, location_id = ? WHERE id = ?`: placeholders 1 to 5 are the
new column values, placeholder 6 selects the row. With no row selected the
statement is done and changes nothing. -/
def stepUpdateDevice (db : Sqlite3) (stmt : Stmt) : ResultCode × Sqlite3 :=
  let hit : DeviceRow → Bool := fun r => idMatches (stmt.param 6) r.id
  if !db.devices.any hit then (ResultCode.SQLITE_DONE, db)
  else
    match (stmt.param 1).asText, (stmt.param 2).asText, (stmt.param 3).asText,
        (stmt.param 4).asText with
    | some name, some type, some serial_number, some creation_date =>
      match (stmt.param 5).asInteger with
      | none => (ResultCode.SQLITE_MISMATCH, db)
      | some location_id =>
        let rows : List DeviceRow := db.devices.map (fun r =>
          if hit r then DeviceRow.mk r.id name type serial_number creation_date location_id
          else r)
        if !decide ((rows.map (fun r => r.serial_number)).Nodup) then
          (ResultCode.SQLITE_CONSTRAINT, db)
        else if db.foreign_keys && !fkHolds db.locations location_id then
          (ResultCode.SQLITE_CONSTRAINT, db)
        else (ResultCode.SQLITE_DONE, { db with devices := rows })
    | _, _, _, _ => (ResultCode.SQLITE_CONSTRAINT, db)

/-- Stepping `DELETE FROM Devices WHERE id = ?`. -/
def stepDeleteDevice (db : Sqlite3) (stmt : Stmt) : ResultCode × Sqlite3 :=
  (ResultCode.SQLITE_DONE,
    { db with devices := db.devices.filter (fun r => !idMatches (stmt.param 1) r.id) })

/-- Stepping `INSERT INTO Locations (name, type) VALUES (?, ?)`. -/
def stepInsertLocation (db : Sqlite3) (stmt : Stmt) : ResultCode × Sqlite3 :=
  match (stmt.param 1).asText, (stmt.param 2).asText with
  | some name, some type =>
    match nextRowid db.locations_seq (db.locations.map (fun r => r.id)) with
    | none => (ResultCode.SQLITE_FULL, db)
    | some id =>
      (ResultCode.SQLITE_DONE,
        { db with
          locations := db.locations ++ [LocationRow.mk id name type]
          locations_seq := id })
  | _, _ => (ResultCode.SQLITE_CONSTRAINT, db)

/-- Stepping `UPDATE Locations SET name = ?, type = ? WHERE id = ?`. -/
def stepUpdateLocation (db : Sqlite3) (stmt : Stmt) : ResultCode × Sqlite3 :=
  let hit : LocationRow → Bool := fun r => idMatches (stmt.param 3) r.id
  if !db.locations.any hit then (ResultCode.SQLITE_DONE, db)
  else
    match (stmt.param 1).asText, (stmt.param 2).asText with
    | some name, some type =>
      (ResultCode.SQLITE_DONE,
        { db with
          locations := db.locations.map (fun r =>
            if hit r then LocationRow.mk r.id name type else r) })
    | _, _ => (ResultCode.SQLITE_CONSTRAINT, db)

/-- Stepping `DELETE FROM Locations WHERE id = ?`: with foreign keys enforced,
the deletion of a location some device row references is refused
(`ON DELETE RESTRICT`) and nothing is deleted. -/
def stepDeleteLocation (db : Sqlite3) (stmt : Stmt) : ResultCode × Sqlite3 :=
  let hit : LocationRow → Bool := fun r => idMatches (stmt.param 1) r.id
  if db.foreign_keys &&
      db.locations.any (fun l => hit l && db.devices.any (fun d => d.location_id == some l.id)) then
    (ResultCode.SQLITE_CONSTRAINT, db)
  else
    (ResultCode.SQLITE_DONE, { db with locations := db.locations.filter (fun r => !hit r) })

/-- One `sqlite3_step` of a statement that writes. A statement that reads
writes nothing; its rows are given by `deviceRows` and `locationRows`. -/
def sqlite3_step (db : Sqlite3) (stmt : Stmt) : ResultCode × Sqlite3 :=
  match stmt.sql with
  | .insertDevice => stepInsertDevice db stmt
  | .updateDevice => stepUpdateDevice db stmt
  | .deleteDevice => stepDeleteDevice db stmt
  | .insertLocation => stepInsertLocation db stmt
  | .updateLocation => stepUpdateLocation db stmt
  | .deleteLocation => stepDeleteLocation db stmt
  | _ => (ResultCode.SQLITE_DONE, db)

/-- The rows a `SELECT` over `devices` with a fixed text yields, one per
`sqlite3_step` that returns `SQLITE_ROW`. -/
def deviceRows (db : Sqlite3) (stmt : Stmt) : List DeviceRow :=
  match stmt.sql with
  | .selectDevice => db.devices.filter (fun r => idMatches (stmt.param 1) r.id)
  | .selectAllDevices => db.devices
  | _ => []

/-- The rows a `SELECT` over `locations` yields. -/
def locationRows (db : Sqlite3) (stmt : Stmt) : List LocationRow :=
  match stmt.sql with
  | .selectLocation => db.locations.filter (fun r => idMatches (stmt.param 1) r.id)
  | .selectAllLocations => db.locations
  | _ => []

/-- The call `sqlite3_column_int` on an integer column: NULL reads as 0. -/
def sqlite3_column_int (v : Option Int) : Int :=
  match v with
  | none => 0
  | some n => toInt32 n

/-! ## `database/database_manager.cpp` -/

/-- The state of a `DatabaseManager`: `db_` is `none` for a null handle. -/
structure DatabaseManager where
  db_name_ : String
  db_ : Option Sqlite3
deriving DecidableEq, Repr

/-- The call `sqlite3_prepare_v2(db_, sql, -1, &stmt, NULL)` on one of the
fixed statement texts: it fails on a null handle and when the tables the
text names do not exist. -/
def sqlite3_prepare_v2 (db_ : Option Sqlite3) (sql : Sql) : Option Stmt :=
  match db_ with
  | none => none
  | some db => if db.tables then some (Stmt.mk sql []) else none

/-- The method `DatabaseManager::executeStatement`: true exactly when the step
returns `SQLITE_DONE`. -/
def DatabaseManager.executeStatement (self : DatabaseManager) (stmt : Stmt) :
    Bool × DatabaseManager :=
  match self.db_ with
  | none => (false, self)
  | some db =>
    let r := sqlite3_step db stmt
    if r.1 != ResultCode.SQLITE_DONE then (false, { self with db_ := some r.2 })
    else (true, { self with db_ := some r.2 })

/-- The method `DatabaseManager::addDevice`. -/
def DatabaseManager.addDevice (self : DatabaseManager) (device : Device) :
    Bool × DatabaseManager :=
  match sqlite3_prepare_v2 self.db_ Sql.insertDevice with
  | none => (false, self)
  | some stmt =>
    let stmt := sqlite3_bind_text stmt 1 device.name
    let stmt := sqlite3_bind_text stmt 2 device.type
    let stmt := sqlite3_bind_text stmt 3 device.serial_number
    let stmt := sqlite3_bind_text stmt 4 device.creation_date
    let stmt := sqlite3_bind_int stmt 5 device.location_id
    self.executeStatement stmt

/-- The column reads shared by `getDevice`, `getAllDevices` and
`getDevicesWithFilters`. -/
def readDevice (r : DeviceRow) : Device :=
  { id := sqlite3_column_int (some r.id)
    name := r.name
    type := r.type
    serial_number := r.serial_number
    creation_date := r.creation_date
    location_id := sqlite3_column_int r.location_id }

/-- The column reads shared by `getLocation` and `getAllLocations`. -/
def readLocation (r : LocationRow) : Location :=
  { id := sqlite3_column_int (some r.id), name := r.name, type := r.type }

/-- The method `DatabaseManager::getDevice`: the first row the statement
yields, if any. The parameter is a C++ `int`: an integer is taken in its
32-bit reduction, so no rowid outside the range of `int` can be asked for. -/
def DatabaseManager.getDevice (self : DatabaseManager) (id : Int) : Option Device :=
  match sqlite3_prepare_v2 self.db_ Sql.selectDevice, self.db_ with
  | some stmt, some db =>
    let stmt := sqlite3_bind_int stmt 1 (toInt32 id)
    match deviceRows db stmt with
    | r :: _ => some (readDevice r)
    | [] => none
  | _, _ => none

/-- The method `DatabaseManager::getAllDevices`. -/
def DatabaseManager.getAllDevices (self : DatabaseManager) : List Device :=
  match sqlite3_prepare_v2 self.db_ Sql.selectAllDevices, self.db_ with
  | some stmt, some db => (deviceRows db stmt).map readDevice
  | _, _ => []

/-- The method `DatabaseManager::updateDevice`. Placeholder 5 is bound twice,
as in the source: first to `location_id`, then to `id`. -/
def DatabaseManager.updateDevice (self : DatabaseManager) (device : Device) :
    Bool × DatabaseManager :=
  match sqlite3_prepare_v2 self.db_ Sql.updateDevice with
  | none => (false, self)
  | some stmt =>
    let stmt := sqlite3_bind_text stmt 1 device.name
    let stmt := sqlite3_bind_text stmt 2 device.type
    let stmt := sqlite3_bind_text stmt 3 device.serial_number
    let stmt := sqlite3_bind_text stmt 4 device.creation_date
    let stmt := sqlite3_bind_int stmt 5 device.location_id
    let stmt := sqlite3_bind_int stmt 5 device.id
    self.executeStatement stmt

/-- The method `DatabaseManager::deleteDevice`. -/
def DatabaseManager.deleteDevice (self : DatabaseManager) (id : Int) : Bool × DatabaseManager :=
  match sqlite3_prepare_v2 self.db_ Sql.deleteDevice with
  | none => (false, self)
  | some stmt =>
    let stmt := sqlite3_bind_int stmt 1 id
    self.executeStatement stmt

/-- The text `getDevicesWithFilters` assembles and hands to
`sqlite3_prepare_v2`. -/
def filterQuery (name type serial_number creation_date_start creation_date_end
    location : String) : String :=
  let sql := "SELECT devices.* FROM devices INNER JOIN locations ON devices.location_id = locations.id WHERE 1 = 1"
  let sql := if name ≠ "" then sql ++ (" AND devices.name = \x27" ++ name ++ "\x27") else sql
  let sql := if type ≠ "" then sql ++ (" AND devices.type = \x27" ++ type ++ "\x27") else sql
  let sql := if serial_number ≠ "" then
    sql ++ (" AND devices.serial_number = \x27" ++ serial_number ++ "\x27") else sql
  let sql := if creation_date_start ≠ "" then
    sql ++ (" AND devices.creation_date >= \x27" ++ creation_date_start ++ "\x27") else sql
  let sql := if creation_date_end ≠ "" then
    sql ++ (" AND devices.creation_date <= \x27" ++ creation_date_end ++ "\x27") else sql
  let sql := if location ≠ "" then
    sql ++ (" AND locations.name = \x27" ++ location ++ "\x27") else sql
  sql

/-- The method `DatabaseManager::getDevicesWithFilters`. What SQLite makes of
the assembled text is `run`: `none` when the text cannot be prepared, else the
rows the statement yields. -/
def DatabaseManager.getDevicesWithFilters (run : String → Sqlite3 → Option (List DeviceRow))
    (self : DatabaseManager)
    (name type serial_number creation_date_start creation_date_end location : String) :
    List Device :=
  let sql := filterQuery name type serial_number creation_date_start creation_date_end location
  match self.db_ with
  | none => []
  | some db =>
    match run sql db with
    | none => []
    | some rows => rows.map readDevice

/-- The method `DatabaseManager::addLocation`. -/
def DatabaseManager.addLocation (self : DatabaseManager) (location : Location) :
    Bool × DatabaseManager :=
  match sqlite3_prepare_v2 self.db_ Sql.insertLocation with
  | none => (false, self)
  | some stmt =>
    let stmt := sqlite3_bind_text stmt 1 location.name
    let stmt := sqlite3_bind_text stmt 2 location.type
    self.executeStatement stmt

/-- The method `DatabaseManager::getLocation`. -/
def DatabaseManager.getLocation (self : DatabaseManager) (id : Int) : Option Location :=
  match sqlite3_prepare_v2 self.db_ Sql.selectLocation, self.db_ with
  | some stmt, some db =>
    let stmt := sqlite3_bind_int stmt 1 id
    match locationRows db stmt with
    | r :: _ => some (readLocation r)
    | [] => none
  | _, _ => none

/-- The method `DatabaseManager::getAllLocations`. -/
def DatabaseManager.getAllLocations (self : DatabaseManager) : List Location :=
  match sqlite3_prepare_v2 self.db_ Sql.selectAllLocations, self.db_ with
  | some stmt, some db => (locationRows db stmt).map readLocation
  | _, _ => []

/-- The method `DatabaseManager::updateLocation`. -/
def DatabaseManager.updateLocation (self : DatabaseManager) (location : Location) :
    Bool × DatabaseManager :=
  match sqlite3_prepare_v2 self.db_ Sql.updateLocation with
  | none => (false, self)
  | some stmt =>
    let stmt := sqlite3_bind_text stmt 1 location.name
    let stmt := sqlite3_bind_text stmt 2 location.type
    let stmt := sqlite3_bind_int stmt 3 location.id
    self.executeStatement stmt

/-- The method `DatabaseManager::deleteLocation`. -/
def DatabaseManager.deleteLocation (self : DatabaseManager) (id : Int) :
    Bool × DatabaseManager :=
  match sqlite3_prepare_v2 self.db_ Sql.deleteLocation with
  | none => (false, self)
  | some stmt =>
    let stmt := sqlite3_bind_int stmt 1 id
    self.executeStatement stmt

/-- The text columns of every row hold C strings: all text the program stores
went through `sqlite3_bind_text` with length -1. -/
def Sqlite3.cText (db : Sqlite3) : Prop :=
  (∀ r ∈ db.devices, isCString r.name ∧ isCString r.type ∧ isCString r.serial_number ∧
    isCString r.creation_date) ∧
  (∀ r ∈ db.locations, isCString r.name ∧ isCString r.type)

instance (db : Sqlite3) : Decidable db.cText := by
  unfold Sqlite3.cText; exact inferInstance

/-- The constraints of the schema on the rows of a database with the foreign
key pragma on and the tables present: device ids, serial numbers and location
ids are pairwise distinct (`PRIMARY KEY`, `UNIQUE`), and the text columns hold
C strings. -/
def Sqlite3.ready (db : Sqlite3) : Prop :=
  db.foreign_keys = true ∧ db.tables = true ∧
    (db.devices.map (fun r => r.id)).Nodup ∧
    (db.devices.map (fun r => r.serial_number)).Nodup ∧
    (db.locations.map (fun r => r.id)).Nodup ∧
    db.cText

instance (db : Sqlite3) : Decidable db.ready := by
  unfold Sqlite3.ready; exact inferInstance

/-- An initialized store: the state `DatabaseManager::init` leaves when none of
its steps fails. The handle is open, foreign keys are enforced and the schema
is applied. -/
def DatabaseManager.initialized (self : DatabaseManager) : Prop :=
  match self.db_ with
  | none => False
  | some db => db.ready

instance (self : DatabaseManager) : Decidable self.initialized := by
  unfold DatabaseManager.initialized; split <;> exact inferInstance

/-- The largest device rowid the store holds or has ever held. -/
def DatabaseManager.lastDeviceRowid (self : DatabaseManager) : Int :=
  match self.db_ with
  | none => 0
  | some db => lastRowid db.devices_seq (db.devices.map (fun r => r.id))

/-- The largest location rowid the store holds or has ever held. -/
def DatabaseManager.lastLocationRowid (self : DatabaseManager) : Int :=
  match self.db_ with
  | none => 0
  | some db => lastRowid db.locations_seq (db.locations.map (fun r => r.id))

/-- The device rows of the store; none behind a null handle. -/
def DatabaseManager.devices (self : DatabaseManager) : List DeviceRow :=
  match self.db_ with
  | none => []
  | some db => db.devices

/-- The location rows of the store; none behind a null handle. -/
def DatabaseManager.locations (self : DatabaseManager) : List LocationRow :=
  match self.db_ with
  | none => []
  | some db => db.locations

/-! ## `utilities/http_status_codes.hpp` -/

/-- The constant `HttpStatus::OK`. -/
def HttpStatus.OK : Int := 200

/-- The constant `HttpStatus::CREATED`. -/
def HttpStatus.CREATED : Int := 201

/-- The constant `HttpStatus::NO_CONTENT`. -/
def HttpStatus.NO_CONTENT : Int := 204

/-- The constant `HttpStatus::NOT_FOUND`. -/
def HttpStatus.NOT_FOUND : Int := 404

/-- The constant `HttpStatus::METHOD_NOT_ALLOWED`. -/
def HttpStatus.METHOD_NOT_ALLOWED : Int := 405

/-- The constant `HttpStatus::INTERNAL_SERVER_ERROR`. -/
def HttpStatus.INTERNAL_SERVER_ERROR : Int := 500

/-! ## Requests, responses and JSON values -/

/-- A `Json::Value` (numbers are integers; reals are left out). -/
inductive JsonValue where
  | null
  | bool (b : Bool)
  | int (n : Int)
  | string (s : String)
  | array (items : List JsonValue)
  | object (members : List (String × JsonValue))

/-- The member access `value[key]`: a null value and a missing member read as
null; on a value that is neither null nor an object the access throws
(`none`). -/
def JsonValue.get (v : JsonValue) (key : String) : Option JsonValue :=
  match v with
  | .null => some JsonValue.null
  | .object members =>
    match members.find? (fun m => m.1 == key) with
    | some m => some m.2
    | none => some JsonValue.null
  | _ => none

/-- The conversion `asString()`: null reads as the empty string, a boolean or
number as its text; on an array or object it throws (`none`). -/
def JsonValue.asString (v : JsonValue) : Option String :=
  match v with
  | .null => some ""
  | .bool b => some (if b then "true" else "false")
  | .int n => some (toString n)
  | .string s => some s
  | _ => none

/-- The conversion `asInt()`: null reads as 0, a boolean as 0 or 1; on a number
outside `int`, a string, an array or an object it throws (`none`). -/
def JsonValue.asInt (v : JsonValue) : Option Int :=
  match v with
  | .null => some 0
  | .bool b => some (if b then 1 else 0)
  | .int n => if isInt n then some n else none
  | _ => none

/-- The method `Json::Value::append` on a null or array value. -/
def JsonValue.append (v : JsonValue) (x : JsonValue) : JsonValue :=
  match v with
  | .array items => JsonValue.array (items ++ [x])
  | _ => JsonValue.array [x]

/-- A response body: a literal text, or the `toStyledString()` of a JSON
value. -/
inductive Body where
  | text (s : String)
  | styled (v : JsonValue)

/-- A `served::response`. -/
structure Response where
  status : Int
  headers : List (String × String)
  body : Body

/-- The method `served::response::set_status`. -/
def Response.set_status (res : Response) (status : Int) : Response :=
  { res with status := status }

/-- The method `served::response::set_header`. -/
def Response.set_header (res : Response) (name value : String) : Response :=
  { res with headers := res.headers.filter (fun h => h.1 != name) ++ [(name, value)] }

/-- The method `served::response::set_body`. -/
def Response.set_body (res : Response) (body : Body) : Response :=
  { res with body := body }

/-- A `served::parameters` map: `get` and `operator[]` read a missing key as the
empty string. -/
def parametersGet (ps : List (String × String)) (key : String) : String :=
  match ps.find? (fun q => q.1 == key) with
  | some q => q.2
  | none => ""

/-- A `served::request`: the path parameters, the query parameters, and the
value `std::istringstream(req.body()) >> jsonRequest` decodes from the body
(`none` when the body is not JSON and the decoder throws). -/
structure Request where
  params : List (String × String)
  query : List (String × String)
  body : Option JsonValue

/-- The characters `std::stoi` skips before the number. -/
def isSpace (c : Char) : Bool :=
  c == ' ' || c == '\t' || c == '\n' || c == '\r' || c.toNat == 11 || c.toNat == 12

/-- The value of a run of decimal digits. -/
def digitsValue (ds : List Char) : Int :=
  ds.foldl (fun acc c => acc * 10 + ((c.toNat : Int) - 48)) 0

/-- The function `std::stoi`: leading white space, an optional sign and the
longest run of digits; it throws (`none`) when there is no digit or the value
is outside `int`. -/
def stoi (s : String) : Option Int :=
  let cs := s.toList.dropWhile isSpace
  let signed : Bool × List Char :=
    match cs with
    | '-' :: rest => (true, rest)
    | '+' :: rest => (false, rest)
    | _ => (false, cs)
  let ds := signed.2.takeWhile Char.isDigit
  if ds.isEmpty then none
  else
    let v := if signed.1 then - digitsValue ds else digitsValue ds
    if isInt v then some v else none

/-! ## `server/server_manager.cpp` -/

/-- The four paths `initDeviceRoutes` and `initLocationRoutes` register. -/
inductive Path where
  | devices
  | devicesId
  | locations
  | locationsId
deriving DecidableEq, Repr

/-- The pattern a path is registered under. -/
def Path.pattern : Path → String
  | .devices => "/devices"
  | .devicesId => "/devices/\x7bid\x7d"
  | .locations => "/locations"
  | .locationsId => "/locations/\x7bid\x7d"

/-- The four methods a handler is registered for. -/
inductive Method where
  | GET
  | POST
  | PUT
  | DELETE
deriving DecidableEq, Repr

/-- The member functions of `ServerManager` bound to routes. -/
inductive Handler where
  | handleGetDevice
  | handleUpdateDevice
  | handleDeleteDevice
  | handleAddDevice
  | handleGetDevices
  | handleGetLocation
  | handleUpdateLocation
  | handleDeleteLocation
  | handleAddLocation
  | handleGetAllLocations
  | handleNotAllowed
deriving DecidableEq, Repr

/-- The state of a `ServerManager`: `mux_` lists the registrations made so far,
`serving_` tells whether `server_->run` has been entered, from where on the
server accepts requests. -/
structure ServerManager where
  concurrency_capacity_ : Int
  database_ : DatabaseManager
  mux_ : List (Path × Method × Handler) := []
  serving_ : Bool := false

/-- The JSON object the handlers build from a `Device`. -/
def jsonDevice (device : Device) : JsonValue :=
  JsonValue.object
    [("id", JsonValue.int device.id), ("name", JsonValue.string device.name),
     ("type", JsonValue.string device.type),
     ("serial_number", JsonValue.string device.serial_number),
     ("creation_date", JsonValue.string device.creation_date),
     ("location_id", JsonValue.int device.location_id)]

/-- The JSON object the handlers build from a `Location`. -/
def jsonLocation (location : Location) : JsonValue :=
  JsonValue.object
    [("id", JsonValue.int location.id), ("name", JsonValue.string location.name),
     ("type", JsonValue.string location.type)]

/-- The handler `ServerManager::handleUpdateDevice`; `none` when `std::stoi` or
the JSON reads throw. -/
def ServerManager.handleUpdateDevice (self : ServerManager) (res : Response) (req : Request) :
    Option (Response × ServerManager) := do
  let id ← stoi (parametersGet req.params "id")
  let jsonRequest ← req.body
  let name ← (← jsonRequest.get "name").asString
  let type ← (← jsonRequest.get "type").asString
  let serial_number ← (← jsonRequest.get "serial_number").asString
  let creation_date ← (← jsonRequest.get "creation_date").asString
  let location_id ← (← jsonRequest.get "location_id").asInt
  let updatedDevice : Device := Device.mk id name type serial_number creation_date location_id
  let r := self.database_.updateDevice updatedDevice
  if r.1 then
    let res := res.set_status HttpStatus.OK
    let res := res.set_header "Content-Type" "application/json"
    let res := res.set_body (Body.text "\x7b\"message\": \"Device updated successfully.\"\x7d\n")
    pure (res, { self with database_ := r.2 })
  else
    let res := res.set_status HttpStatus.INTERNAL_SERVER_ERROR
    let res := res.set_body (Body.text "\x7b\"error\": \"Failed to update device.\"\x7d\n")
    pure (res, { self with database_ := r.2 })

/-- The handler `ServerManager::handleDeleteDevice`. -/
def ServerManager.handleDeleteDevice (self : ServerManager) (res : Response) (req : Request) :
    Option (Response × ServerManager) := do
  let id ← stoi (parametersGet req.params "id")
  let r := self.database_.deleteDevice id
  if r.1 then
    let res := res.set_status HttpStatus.OK
    let res := res.set_header "Content-Type" "application/json"
    let res := res.set_body (Body.text "\x7b\"message\": \"Device deleted successfully.\"\x7d\n")
    pure (res, { self with database_ := r.2 })
  else
    let res := res.set_status HttpStatus.NOT_FOUND
    let res := res.set_body (Body.text "\x7b\"error\": \"Device not found.\"\x7d\n")
    pure (res, { self with database_ := r.2 })

/-- The handler `ServerManager::handleDeleteLocation`. -/
def ServerManager.handleDeleteLocation (self : ServerManager) (res : Response) (req : Request) :
    Option (Response × ServerManager) := do
  let id ← stoi (parametersGet req.params "id")
  let r := self.database_.deleteLocation id
  if r.1 then
    let res := res.set_status HttpStatus.OK
    let res := res.set_header "Content-Type" "application/json"
    let res := res.set_body (Body.text "\x7b\"message\": \"Location deleted successfully.\"\x7d\n")
    pure (res, { self with database_ := r.2 })
  else
    let res := res.set_status HttpStatus.NOT_FOUND
    let res := res.set_body (Body.text "\x7b\"error\": \"Location not found.\"\x7d\n")
    pure (res, { self with database_ := r.2 })

/-- The handler `ServerManager::handleGetAllDevices`. -/
def ServerManager.handleGetAllDevices (self : ServerManager) (res : Response) (_req : Request) :
    Response :=
  let devices := self.database_.getAllDevices
  if devices.isEmpty then res.set_status HttpStatus.NO_CONTENT
  else
    let jsonResponse := devices.foldl (fun acc device => acc.append (jsonDevice device))
      JsonValue.null
    let res := res.set_status HttpStatus.OK
    let res := res.set_header "Content-Type" "application/json"
    res.set_body (Body.styled jsonResponse)

/-- The handler `ServerManager::handleGetDevicesWithFilters`. -/
def ServerManager.handleGetDevicesWithFilters (run : String → Sqlite3 → Option (List DeviceRow))
    (self : ServerManager) (res : Response) (req : Request) : Response :=
  let name := parametersGet req.query "name"
  let type := parametersGet req.query "type"
  let serial_number := parametersGet req.query "serial_number"
  let creation_date_start := parametersGet req.query "creation_date_start"
  let creation_date_end := parametersGet req.query "creation_date_end"
  let location := parametersGet req.query "location"
  let devices := self.database_.getDevicesWithFilters run name type serial_number
    creation_date_start creation_date_end location
  if devices.isEmpty then
    let res := res.set_status HttpStatus.OK
    let res := res.set_header "Content-Type" "application/json"
    res.set_body (Body.text "\x7b\"message\": \"No devices found.\"\x7d\n")
  else
    let jsonResponse := devices.foldl (fun acc device => acc.append (jsonDevice device))
      JsonValue.null
    let res := res.set_status HttpStatus.OK
    let res := res.set_header "Content-Type" "application/json"
    res.set_body (Body.styled jsonResponse)

/-- The loop of `ServerManager::handleGetDevices` that sets `hasFilters`: true
when some query parameter has a non-empty value. -/
def hasFilters (req : Request) : Bool :=
  req.query.any (fun query_param => query_param.2 != "")

/-- The handlers `handleGetDevices` hands a request to. -/
inductive ListHandler where
  | handleGetDevicesWithFilters
  | handleGetAllDevices
deriving DecidableEq, Repr

/-- The branch `ServerManager::handleGetDevices` takes. -/
def dispatchGetDevices (req : Request) : ListHandler :=
  if hasFilters req then ListHandler.handleGetDevicesWithFilters
  else ListHandler.handleGetAllDevices

/-- The handler `ServerManager::handleGetDevices`. -/
def ServerManager.handleGetDevices (run : String → Sqlite3 → Option (List DeviceRow))
    (self : ServerManager) (res : Response) (req : Request) : Response :=
  match dispatchGetDevices req with
  | .handleGetDevicesWithFilters => self.handleGetDevicesWithFilters run res req
  | .handleGetAllDevices => self.handleGetAllDevices res req

/-- The handler `ServerManager::handleGetAllLocations`. -/
def ServerManager.handleGetAllLocations (self : ServerManager) (res : Response)
    (_req : Request) : Response :=
  let locations := self.database_.getAllLocations
  if locations.isEmpty then res.set_status HttpStatus.NO_CONTENT
  else
    let jsonResponse := locations.foldl (fun acc location => acc.append (jsonLocation location))
      JsonValue.null
    let res := res.set_status HttpStatus.OK
    let res := res.set_header "Content-Type" "application/json"
    res.set_body (Body.styled jsonResponse)

/-- The six query keys `handleGetDevicesWithFilters` reads. -/
def recognizedKeys : List String :=
  ["name", "type", "serial_number", "creation_date_start", "creation_date_end", "location"]

/-! ## Sample states -/

/-- A database with one location and one device placed in it. -/
def sampleDb : Sqlite3 :=
  { foreign_keys := true
    tables := true
    devices := [DeviceRow.mk 1 "Sensor1" "temperature" "SN-001" "2024-01-01" (some 1)]
    locations := [LocationRow.mk 1 "Lab" "room"]
    devices_seq := 1
    locations_seq := 1 }

/-- An initialized store over `sampleDb`. -/
def sampleStore : DatabaseManager := DatabaseManager.mk "../device.db" (some sampleDb)

/-- A server over `sampleStore`. -/
def sampleServer : ServerManager := { concurrency_capacity_ := 1, database_ := sampleStore }

/-- A response no handler has written to yet. -/
def freshResponse : Response := Response.mk 200 [] (Body.text "")

/-! ## The filter predicate as the specification words it -/

/-- The base text of the filtered read: the join of devices and locations under
a predicate that is unconditionally true. -/
def baseQuery : String :=
  "SELECT devices.* FROM devices INNER JOIN locations ON devices.location_id = locations.id WHERE 1 = 1"

/-- One clause of the filter predicate: nothing for an empty argument, else
the opening text of the clause (` AND `, the column, the comparison and an
opening quote), the argument and a closing quote. -/
def filterClause (opening value : String) : String :=
  if value = "" then "" else opening ++ value ++ "\x27"

/-! ## The remaining handlers and the routes -/

/-- The handler `ServerManager::handleGetDevice`; `none` when `std::stoi`
throws. -/
def ServerManager.handleGetDevice (self : ServerManager) (res : Response) (req : Request) :
    Option (Response × ServerManager) := do
  let id ← stoi (parametersGet req.params "id")
  match self.database_.getDevice id with
  | some device =>
    let res := res.set_status HttpStatus.OK
    let res := res.set_header "Content-Type" "application/json"
    let res := res.set_body (Body.styled (jsonDevice device))
    pure (res, self)
  | none =>
    let res := res.set_status HttpStatus.NOT_FOUND
    let res := res.set_body (Body.text "\x7b\"error\": \"Device not found.\"\x7d\n")
    pure (res, self)

/-- The handler `ServerManager::handleAddDevice`; `none` when the JSON reads
throw. The handler leaves `newDevice.id` unset and `addDevice` does not read
it; it is 0 here. -/
def ServerManager.handleAddDevice (self : ServerManager) (res : Response) (req : Request) :
    Option (Response × ServerManager) :=
  match req.body with
  | none => none
  | some jsonRequest =>
  match (jsonRequest.get "name").bind JsonValue.asString with
  | none => none
  | some name =>
  match (jsonRequest.get "type").bind JsonValue.asString with
  | none => none
  | some type =>
  match (jsonRequest.get "serial_number").bind JsonValue.asString with
  | none => none
  | some serial_number =>
  match (jsonRequest.get "creation_date").bind JsonValue.asString with
  | none => none
  | some creation_date =>
  match (jsonRequest.get "location_id").bind JsonValue.asInt with
  | none => none
  | some location_id =>
  let newDevice : Device := Device.mk 0 name type serial_number creation_date location_id
  let r := self.database_.addDevice newDevice
  if r.1 then
    let res := res.set_status HttpStatus.CREATED
    let res := res.set_header "Content-Type" "application/json"
    let res := res.set_body (Body.text "\x7b\"message\": \"Device added successfully.\"\x7d\n")
    some (res, { self with database_ := r.2 })
  else
    let res := res.set_status HttpStatus.INTERNAL_SERVER_ERROR
    let res := res.set_body (Body.text "\x7b\"error\": \"Failed to add device.\"\x7d\n")
    some (res, { self with database_ := r.2 })

/-- The handler `ServerManager::handleGetLocation`. -/
def ServerManager.handleGetLocation (self : ServerManager) (res : Response) (req : Request) :
    Option (Response × ServerManager) := do
  let id ← stoi (parametersGet req.params "id")
  match self.database_.getLocation id with
  | some location =>
    let res := res.set_status HttpStatus.OK
    let res := res.set_header "Content-Type" "application/json"
    let res := res.set_body (Body.styled (jsonLocation location))
    pure (res, self)
  | none =>
    let res := res.set_status HttpStatus.NOT_FOUND
    let res := res.set_body (Body.text "\x7b\"error\": \"Location not found.\"\x7d\n")
    pure (res, self)

/-- The handler `ServerManager::handleUpdateLocation`. -/
def ServerManager.handleUpdateLocation (self : ServerManager) (res : Response) (req : Request) :
    Option (Response × ServerManager) := do
  let id ← stoi (parametersGet req.params "id")
  let jsonRequest ← req.body
  let name ← (← jsonRequest.get "name").asString
  let type ← (← jsonRequest.get "type").asString
  let updatedLocation : Location := Location.mk id name type
  let r := self.database_.updateLocation updatedLocation
  if r.1 then
    let res := res.set_status HttpStatus.OK
    let res := res.set_header "Content-Type" "application/json"
    let res := res.set_body (Body.text "\x7b\"message\": \"Location updated successfully.\"\x7d\n")
    pure (res, { self with database_ := r.2 })
  else
    let res := res.set_status HttpStatus.INTERNAL_SERVER_ERROR
    let res := res.set_body (Body.text "\x7b\"error\": \"Failed to update location.\"\x7d\n")
    pure (res, { self with database_ := r.2 })

/-- The handler `ServerManager::handleAddLocation`. The handler leaves
`newLocation.id` unset and `addLocation` does not read it; it is 0 here. -/
def ServerManager.handleAddLocation (self : ServerManager) (res : Response) (req : Request) :
    Option (Response × ServerManager) := do
  let jsonRequest ← req.body
  let name ← (← jsonRequest.get "name").asString
  let type ← (← jsonRequest.get "type").asString
  let newLocation : Location := Location.mk 0 name type
  let r := self.database_.addLocation newLocation
  if r.1 then
    let res := res.set_status HttpStatus.CREATED
    let res := res.set_header "Content-Type" "application/json"
    let res := res.set_body (Body.text "\x7b\"message\": \"Location added successfully.\"\x7d\n")
    pure (res, { self with database_ := r.2 })
  else
    let res := res.set_status HttpStatus.INTERNAL_SERVER_ERROR
    let res := res.set_body (Body.text "\x7b\"error\": \"Failed to add location.\"\x7d\n")
    pure (res, { self with database_ := r.2 })

/-- The handler `ServerManager::handleNotAllowed`: it reads nothing of the
request and does not touch `database_`. -/
def ServerManager.handleNotAllowed (_self : ServerManager) (res : Response) (_req : Request) :
    Response :=
  let res := res.set_status HttpStatus.METHOD_NOT_ALLOWED
  res.set_body (Body.text "\x7b\"error\": \"Method not allowed.\"\x7d\n")

/-- The method `ServerManager::initDeviceRoutes`. -/
def ServerManager.initDeviceRoutes (self : ServerManager) : ServerManager :=
  { self with mux_ := self.mux_ ++
      [(Path.devicesId, Method.GET, Handler.handleGetDevice),
       (Path.devicesId, Method.PUT, Handler.handleUpdateDevice),
       (Path.devicesId, Method.DELETE, Handler.handleDeleteDevice),
       (Path.devicesId, Method.POST, Handler.handleNotAllowed),
       (Path.devices, Method.GET, Handler.handleGetDevices),
       (Path.devices, Method.POST, Handler.handleAddDevice),
       (Path.devices, Method.PUT, Handler.handleNotAllowed),
       (Path.devices, Method.DELETE, Handler.handleNotAllowed)] }

/-- The method `ServerManager::initLocationRoutes`. -/
def ServerManager.initLocationRoutes (self : ServerManager) : ServerManager :=
  { self with mux_ := self.mux_ ++
      [(Path.locationsId, Method.GET, Handler.handleGetLocation),
       (Path.locationsId, Method.PUT, Handler.handleUpdateLocation),
       (Path.locationsId, Method.DELETE, Handler.handleDeleteLocation),
       (Path.locationsId, Method.POST, Handler.handleNotAllowed),
       (Path.locations, Method.GET, Handler.handleGetAllLocations),
       (Path.locations, Method.POST, Handler.handleAddLocation),
       (Path.locations, Method.PUT, Handler.handleNotAllowed),
       (Path.locations, Method.DELETE, Handler.handleNotAllowed)] }

/-- The handlers registered for a path and a method. -/
def ServerManager.registered (self : ServerManager) (path : Path) (method : Method) :
    List Handler :=
  (self.mux_.filter (fun r => r.1 == path && r.2.1 == method)).map (fun r => r.2.2)

/-- The call of a bound member function on a request. -/
def ServerManager.call (run : String → Sqlite3 → Option (List DeviceRow)) (self : ServerManager)
    (handler : Handler) (res : Response) (req : Request) : Option (Response × ServerManager) :=
  match handler with
  | .handleGetDevice => self.handleGetDevice res req
  | .handleUpdateDevice => self.handleUpdateDevice res req
  | .handleDeleteDevice => self.handleDeleteDevice res req
  | .handleAddDevice => self.handleAddDevice res req
  | .handleGetDevices => some (self.handleGetDevices run res req, self)
  | .handleGetLocation => self.handleGetLocation res req
  | .handleUpdateLocation => self.handleUpdateLocation res req
  | .handleDeleteLocation => self.handleDeleteLocation res req
  | .handleAddLocation => self.handleAddLocation res req
  | .handleGetAllLocations => some (self.handleGetAllLocations res req, self)
  | .handleNotAllowed => some (self.handleNotAllowed res req, self)

/-- The answer of the multiplexer to a request on one of the four paths: the
call of the handler registered for the path and the method, if there is
one. -/
def ServerManager.dispatch (run : String → Sqlite3 → Option (List DeviceRow))
    (self : ServerManager) (path : Path) (method : Method) (res : Response) (req : Request) :
    Option (Response × ServerManager) :=
  match self.registered path method with
  | handler :: _ => self.call run handler res req
  | [] => none

/-! ## Start-up and tear-down -/

/-- What the start-up meets outside the program: the database stored under
`db_name_` (`none` when the file cannot be opened), and whether the pragma and
the table creation succeed on the connection. -/
structure Environment where
  file : Option Sqlite3
  pragma_ok : Bool
  create_ok : Bool
deriving DecidableEq, Repr

/-- The handle `sqlite3_open` leaves after a failure: no statement can be
prepared on it. -/
def errorHandle : Sqlite3 :=
  { foreign_keys := false, tables := false, devices := [], locations := []
    devices_seq := 0, locations_seq := 0 }

/-- The method `DatabaseManager::open`. A new connection has the foreign key
pragma off. -/
def DatabaseManager.open (env : Environment) (self : DatabaseManager) : Bool × DatabaseManager :=
  match env.file with
  | none => (false, { self with db_ := some errorHandle })
  | some db => (true, { self with db_ := some { db with foreign_keys := false } })

/-- The method `DatabaseManager::close`, together with the handles it passes
to `sqlite3_close`. -/
def DatabaseManager.close (self : DatabaseManager) : DatabaseManager × List Sqlite3 :=
  match self.db_ with
  | some db => ({ self with db_ := none }, [db])
  | none => (self, [])

/-- The method `DatabaseManager::enableForeignKeys`. -/
def DatabaseManager.enableForeignKeys (env : Environment) (self : DatabaseManager) :
    Bool × DatabaseManager :=
  match self.db_ with
  | none => (false, self)
  | some db =>
    if env.pragma_ok then (true, { self with db_ := some { db with foreign_keys := true } })
    else (false, self)

/-- The method `DatabaseManager::createTablesIfNeeded`: tables that exist are
left as they are. -/
def DatabaseManager.createTablesIfNeeded (env : Environment) (self : DatabaseManager) :
    Bool × DatabaseManager :=
  match self.db_ with
  | none => (false, self)
  | some db =>
    if env.create_ok then (true, { self with db_ := some { db with tables := true } })
    else (false, self)

/-- The method `DatabaseManager::init`. It returns nothing: after a failed
step it only prints and returns. -/
def DatabaseManager.init (env : Environment) (self : DatabaseManager) : DatabaseManager :=
  let r := self.open env
  if !r.1 then r.2
  else
    let r := r.2.enableForeignKeys env
    if !r.1 then r.2
    else
      let r := r.2.createTablesIfNeeded env
      if !r.1 then r.2
      else r.2

/-- Whether `DatabaseManager::init` takes one of its three early returns. -/
def DatabaseManager.initFails (env : Environment) (self : DatabaseManager) : Bool :=
  let r := self.open env
  if !r.1 then true
  else
    let r := r.2.enableForeignKeys env
    if !r.1 then true
    else !(r.2.createTablesIfNeeded env).1

/-- The method `ServerManager::init`. -/
def ServerManager.init (env : Environment) (self : ServerManager) : ServerManager :=
  let self := { self with database_ := self.database_.init env }
  let self := self.initDeviceRoutes
  self.initLocationRoutes

/-- The method `ServerManager::start`: `server_->run` is entered and the server
accepts requests. -/
def ServerManager.start (self : ServerManager) : ServerManager :=
  { self with serving_ := true }

/-- The method `ServerManager::stop`. -/
def ServerManager.stop (self : ServerManager) : ServerManager :=
  { self with serving_ := false }

/-- The constructor `ServerManager::ServerManager`. -/
def ServerManager.new (db_path : String) (concurrency_capacity : Int) : ServerManager :=
  { concurrency_capacity_ := concurrency_capacity
    database_ := DatabaseManager.mk db_path none }

/-- The start-up sequence of `main`: the state in which `main` sits once
`server.start()` has been called. Neither `init` nor `start` throws. -/
def main (env : Environment) : ServerManager :=
  let server := ServerManager.new "../device.db" 1
  let server := server.init env
  server.start

/-- The destructor `ServerManager::~ServerManager` followed by the destructor
of its member `database_` (`DatabaseManager::~DatabaseManager`), together with
the handles passed to `sqlite3_close` on the way. -/
def ServerManager.destroy (self : ServerManager) : ServerManager × List Sqlite3 :=
  let self := self.stop
  let r1 := self.database_.close
  let r2 := r1.1.close
  ({ self with database_ := r2.1 }, r1.2 ++ r2.2)

/-! ## Sequences of repository calls -/

/-- A call of one of the six mutating repository methods. -/
inductive StoreOp where
  | addDevice (device : Device)
  | updateDevice (device : Device)
  | deleteDevice (id : Int)
  | addLocation (location : Location)
  | updateLocation (location : Location)
  | deleteLocation (id : Int)
deriving DecidableEq, Repr

/-- The store after one call. -/
def DatabaseManager.apply (self : DatabaseManager) (op : StoreOp) : DatabaseManager :=
  match op with
  | .addDevice device => (self.addDevice device).2
  | .updateDevice device => (self.updateDevice device).2
  | .deleteDevice id => (self.deleteDevice id).2
  | .addLocation location => (self.addLocation location).2
  | .updateLocation location => (self.updateLocation location).2
  | .deleteLocation id => (self.deleteLocation id).2

/-- The empty initialized store: what `init` leaves on a new database file. -/
def emptyStore : DatabaseManager :=
  DatabaseManager.mk "../device.db"
    (some { foreign_keys := true, tables := true, devices := [], locations := []
            devices_seq := 0, locations_seq := 0 })

/-- Referential integrity: the `location_id` of every device row is the id of a
location row. -/
def DatabaseManager.referentialIntegrity (self : DatabaseManager) : Prop :=
  ∀ d ∈ self.devices, ∃ l ∈ self.locations, d.location_id = some l.id

instance (self : DatabaseManager) : Decidable self.referentialIntegrity := by
  unfold DatabaseManager.referentialIntegrity; exact inferInstance

/-! ## The filtered read without filters -/

/-- The rows of `SELECT devices.* FROM devices INNER JOIN locations ON
devices.location_id = locations.id`: a device row once for every location row
whose id is its `location_id`. -/
def innerJoin (db : Sqlite3) : List DeviceRow :=
  db.devices.flatMap (fun d =>
    (db.locations.filter (fun l => d.location_id == some l.id)).map (fun _ => d))

/-- A reading of the assembled texts that gives the base text its SQL meaning
on a database with the tables present: the rows of the join, in some order. -/
def readsBaseQuery (run : String → Sqlite3 → Option (List DeviceRow)) : Prop :=
  ∀ db : Sqlite3, db.tables = true → ∃ rows, run baseQuery db = some rows ∧ rows.Perm (innerJoin db)

/-- A reading that knows the base text only. -/
def sampleRun (text : String) (db : Sqlite3) : Option (List DeviceRow) :=
  if text = baseQuery ∧ db.tables = true then some (innerJoin db) else none

/-- The device row `getDevice` reads for an id: the first row of the table with
that id; none behind a null handle or without the table. -/
def DatabaseManager.deviceWithId (self : DatabaseManager) (id : Int) : Option DeviceRow :=
  match self.db_ with
  | none => none
  | some db => if db.tables then db.devices.find? (fun r => id == r.id) else none

/-- A state of the store that can arise: rows exist only in tables that
exist. -/
def DatabaseManager.consistent (self : DatabaseManager) : Prop :=
  match self.db_ with
  | none => True
  | some db => db.tables = true ∨ (db.devices = [] ∧ db.locations = [])

instance (self : DatabaseManager) : Decidable self.consistent := by
  unfold DatabaseManager.consistent; split <;> exact inferInstance

/-- An initialized store with a second device that has no location. -/
def unassignedStore : DatabaseManager :=
  DatabaseManager.mk "../device.db"
    (some { sampleDb with
      devices := sampleDb.devices ++
        [DeviceRow.mk 2 "Sensor2" "humidity" "SN-002" "2024-02-02" none]
      devices_seq := 2 })

/-- An initialized store whose device has the largest id a C++ `int` holds. -/
def lastIntStore : DatabaseManager :=
  DatabaseManager.mk "../device.db"
    (some { sampleDb with
      devices := [DeviceRow.mk 2147483647 "Sensor1" "temperature" "SN-001" "2024-01-01" (some 1)]
      devices_seq := 2147483647 })

/-- An initialized store whose device has the largest rowid there is. -/
def lastRowidStore : DatabaseManager :=
  DatabaseManager.mk "../device.db"
    (some { sampleDb with
      devices := [DeviceRow.mk 9223372036854775807 "Sensor1" "temperature" "SN-001"
        "2024-01-01" (some 1)]
      devices_seq := 9223372036854775807 })

/-- A server over an initialized store whose only row is a location with
id 0. -/
def zeroLocationServer : ServerManager :=
  { concurrency_capacity_ := 1
    database_ := DatabaseManager.mk "../device.db"
      (some { sampleDb with devices := [], locations := [LocationRow.mk 0 "Depot" "room"] }) }

/-! ## The dispatch table as the specification words it -/

/-- The dispatch table of the request router: the operation each path and
method is mapped to. -/
def routeTable : Path → Method → Handler
  | .devices, .GET => Handler.handleGetDevices
  | .devices, .POST => Handler.handleAddDevice
  | .devices, .PUT => Handler.handleNotAllowed
  | .devices, .DELETE => Handler.handleNotAllowed
  | .devicesId, .GET => Handler.handleGetDevice
  | .devicesId, .POST => Handler.handleNotAllowed
  | .devicesId, .PUT => Handler.handleUpdateDevice
  | .devicesId, .DELETE => Handler.handleDeleteDevice
  | .locations, .GET => Handler.handleGetAllLocations
  | .locations, .POST => Handler.handleAddLocation
  | .locations, .PUT => Handler.handleNotAllowed
  | .locations, .DELETE => Handler.handleNotAllowed
  | .locationsId, .GET => Handler.handleGetLocation
  | .locationsId, .POST => Handler.handleNotAllowed
  | .locationsId, .PUT => Handler.handleUpdateLocation
  | .locationsId, .DELETE => Handler.handleDeleteLocation

/-- The pairs of path and method the router does not allow. -/
def disallowed : List (Path × Method) :=
  [(Path.devicesId, Method.POST), (Path.locationsId, Method.POST),
   (Path.devices, Method.PUT), (Path.devices, Method.DELETE),
   (Path.locations, Method.PUT), (Path.locations, Method.DELETE)]

/-- A server in any state that carries the registrations `init` makes. -/
def ServerManager.routed (self : ServerManager) : ServerManager :=
  ({ self with mux_ := [] } : ServerManager).initDeviceRoutes.initLocationRoutes

/-- An environment in which the database file cannot be opened. -/
def unopenable : Environment := { file := none, pragma_ok := true, create_ok := true }

/-! ## Properties of the embedding -/

/-- The text of `getDevice` has one placeholder. -/
theorem placeholders_selectDevice : Sql.selectDevice.placeholders = 1 := by decide

/-- The text of `deleteDevice` has one placeholder. -/
theorem placeholders_deleteDevice : Sql.deleteDevice.placeholders = 1 := by decide

/-- The text of `deleteLocation` has one placeholder. -/
theorem placeholders_deleteLocation : Sql.deleteLocation.placeholders = 1 := by decide

/-- A running maximum is at least its start value and every element folded in. -/
theorem le_foldl_max (ids : List Int) :
    ∀ seq : Int, seq ≤ ids.foldl max seq ∧ ∀ x ∈ ids, x ≤ ids.foldl max seq := by
  induction ids with
  | nil => intro seq; simp
  | cons a t ih =>
    intro seq
    simp only [List.foldl_cons, List.mem_cons]
    have h := ih (max seq a)
    refine ⟨le_trans (le_max_left _ _) h.1, ?_⟩
    rintro x (rfl | hx)
    · exact le_trans (le_max_right _ _) h.1
    · exact h.2 x hx

/-- The next rowid, when there is one, is one more than the largest rowid used
and lies above every rowid of the table. -/
theorem lt_nextRowid (seq : Int) (ids : List Int) (n : Int) (h : nextRowid seq ids = some n) :
    n = lastRowid seq ids + 1 ∧ lastRowid seq ids < INT64_MAX ∧ ∀ x ∈ ids, x < n := by
  unfold nextRowid at h
  split_ifs at h with hlt
  simp only [Option.some.injEq] at h
  refine ⟨h.symm, hlt, ?_⟩
  intro x hx
  have := (le_foldl_max ids seq).2 x hx
  unfold lastRowid at h
  omega

/-- With a rowid left the next rowid is one more than the largest one used. -/
theorem nextRowid_of_lt (seq : Int) (ids : List Int) (h : lastRowid seq ids < INT64_MAX) :
    nextRowid seq ids = some (lastRowid seq ids + 1) := by
  unfold nextRowid
  rw [if_pos h]

/-- A C string is cut no further. -/
theorem c_str_of_isCString (s : String) (h : isCString s) : c_str s = s := h

/-- Reading a value in the range of `int` through `sqlite3_column_int` is exact. -/
theorem toInt32_of_isInt (v : Int) (h : isInt v) : toInt32 v = v := by
  unfold isInt INT_MIN INT_MAX at h
  unfold toInt32; omega

/-- The statement `addDevice` steps: five placeholders, each bound once, the
texts as C strings. -/
theorem addDevice_stmt (device : Device) :
    sqlite3_bind_int (sqlite3_bind_text (sqlite3_bind_text (sqlite3_bind_text
      (sqlite3_bind_text (Stmt.mk Sql.insertDevice []) 1 device.name) 2 device.type) 3
      device.serial_number) 4 device.creation_date) 5 device.location_id =
    Stmt.mk Sql.insertDevice [(5, SqlValue.integer device.location_id),
      (4, SqlValue.text (c_str device.creation_date)),
      (3, SqlValue.text (c_str device.serial_number)),
      (2, SqlValue.text (c_str device.type)), (1, SqlValue.text (c_str device.name))] := by
  rfl

/-- The statement `updateDevice` steps: placeholder 5 bound twice, placeholder 6
not at all. -/
theorem updateDevice_stmt (device : Device) :
    sqlite3_bind_int (sqlite3_bind_int (sqlite3_bind_text (sqlite3_bind_text (sqlite3_bind_text
      (sqlite3_bind_text (Stmt.mk Sql.updateDevice []) 1 device.name) 2 device.type) 3
      device.serial_number) 4 device.creation_date) 5 device.location_id) 5 device.id =
    Stmt.mk Sql.updateDevice [(5, SqlValue.integer device.id),
      (5, SqlValue.integer device.location_id),
      (4, SqlValue.text (c_str device.creation_date)),
      (3, SqlValue.text (c_str device.serial_number)),
      (2, SqlValue.text (c_str device.type)), (1, SqlValue.text (c_str device.name))] := by
  rfl

/-- Binding the only placeholder of a fresh statement. -/
theorem bind_int_one (sql : Sql) (h : sql.placeholders = 1) (id : Int) :
    sqlite3_bind_int (Stmt.mk sql []) 1 id = Stmt.mk sql [(1, SqlValue.integer id)] := by
  simp [sqlite3_bind_int, Stmt.bind, h]

/-- On an open handle `executeStatement` steps the statement once and reports
whether the step was `SQLITE_DONE`. -/
theorem executeStatement_open (nm : String) (db : Sqlite3) (stmt : Stmt) :
    DatabaseManager.executeStatement (DatabaseManager.mk nm (some db)) stmt =
      (decide ((sqlite3_step db stmt).1 = ResultCode.SQLITE_DONE),
        DatabaseManager.mk nm (some (sqlite3_step db stmt).2)) := by
  simp only [DatabaseManager.executeStatement]
  generalize sqlite3_step db stmt = r
  rcases r with ⟨rc, db2⟩
  cases rc <;> rfl

/-- The values the five placeholders of the `addDevice` statement hold. -/
theorem insert_params (a : Int) (b c d e : String) :
    (Stmt.mk Sql.insertDevice [(5, SqlValue.integer a), (4, SqlValue.text b),
      (3, SqlValue.text c), (2, SqlValue.text d), (1, SqlValue.text e)]).param 1 = SqlValue.text e ∧
    (Stmt.mk Sql.insertDevice [(5, SqlValue.integer a), (4, SqlValue.text b),
      (3, SqlValue.text c), (2, SqlValue.text d), (1, SqlValue.text e)]).param 2 = SqlValue.text d ∧
    (Stmt.mk Sql.insertDevice [(5, SqlValue.integer a), (4, SqlValue.text b),
      (3, SqlValue.text c), (2, SqlValue.text d), (1, SqlValue.text e)]).param 3 = SqlValue.text c ∧
    (Stmt.mk Sql.insertDevice [(5, SqlValue.integer a), (4, SqlValue.text b),
      (3, SqlValue.text c), (2, SqlValue.text d), (1, SqlValue.text e)]).param 4 = SqlValue.text b ∧
    (Stmt.mk Sql.insertDevice [(5, SqlValue.integer a), (4, SqlValue.text b),
      (3, SqlValue.text c), (2, SqlValue.text d), (1, SqlValue.text e)]).param 5 =
        SqlValue.integer a :=
  ⟨rfl, rfl, rfl, rfl, rfl⟩

/-- The outcome of `addDevice` on an open handle with the tables present. -/
theorem addDevice_open (nm : String) (db : Sqlite3) (device : Device) (htab : db.tables = true) :
    DatabaseManager.addDevice (DatabaseManager.mk nm (some db)) device =
      match nextRowid db.devices_seq (db.devices.map (fun r => r.id)) with
      | none => (false, DatabaseManager.mk nm (some db))
      | some id =>
        if db.devices.any (fun r => r.serial_number == c_str device.serial_number) then
          (false, DatabaseManager.mk nm (some db))
        else if db.foreign_keys && !fkHolds db.locations (some device.location_id) then
          (false, DatabaseManager.mk nm (some db))
        else
          (true, DatabaseManager.mk nm (some { db with
            devices := db.devices ++ [DeviceRow.mk id (c_str device.name) (c_str device.type)
              (c_str device.serial_number) (c_str device.creation_date)
              (some device.location_id)]
            devices_seq := id })) := by
  obtain ⟨h1, h2, h3, h4, h5⟩ := insert_params device.location_id (c_str device.creation_date)
    (c_str device.serial_number) (c_str device.type) (c_str device.name)
  simp only [DatabaseManager.addDevice, sqlite3_prepare_v2, htab, if_true, addDevice_stmt,
    executeStatement_open, sqlite3_step, stepInsertDevice, h1, h2, h3, h4, h5,
    SqlValue.asText, SqlValue.asInteger]
  cases nextRowid db.devices_seq (db.devices.map (fun r => r.id)) with
  | none => rfl
  | some id =>
    simp only
    split_ifs <;> rfl

/-- The outcome of `getDevice` on an open handle with the tables present. -/
theorem getDevice_open (nm : String) (db : Sqlite3) (id : Int) (htab : db.tables = true) :
    DatabaseManager.getDevice (DatabaseManager.mk nm (some db)) id =
      ((db.devices.filter (fun r => toInt32 id == r.id)).head?).map readDevice := by
  have hp : (Stmt.mk Sql.selectDevice [(1, SqlValue.integer (toInt32 id))]).param 1 =
      SqlValue.integer (toInt32 id) := rfl
  simp only [DatabaseManager.getDevice, sqlite3_prepare_v2, htab, if_true, deviceRows,
    bind_int_one _ placeholders_selectDevice, hp, idMatches]
  cases db.devices.filter (fun r => toInt32 id == r.id) <;> rfl

/-- C1 as stated fails. On `sampleStore`, which holds location 1 and no device
with the serial numbers used here: a name with a NUL character is stored and
read back cut at the NUL; a serial number that is new but starts with the
stored `SN-001` followed by a NUL is refused. On `lastRowidStore`, where the
largest rowid has been used, the insert is refused. On `lastIntStore` the new
id is 2147483648, which `getDevice`, taking an `int`, does not find. -/
theorem addDevice_roundtrip_fails :
    sampleStore.initialized ∧
    (∀ r ∈ sampleStore.devices, r.serial_number ≠ "SN-002") ∧
    (sampleStore.addDevice (Device.mk 0 "a\x00b" "humidity" "SN-002" "2024-02-02" 1)).1 = true ∧
    (sampleStore.addDevice
      (Device.mk 0 "a\x00b" "humidity" "SN-002" "2024-02-02" 1)).2.getDevice 2 =
        some (Device.mk 2 "a" "humidity" "SN-002" "2024-02-02" 1) ∧
    (∀ r ∈ sampleStore.devices, r.serial_number ≠ "SN-001\x00x") ∧
    (sampleStore.addDevice
      (Device.mk 0 "Sensor2" "humidity" "SN-001\x00x" "2024-02-02" 1)).1 = false ∧
    lastRowidStore.initialized ∧
    (lastRowidStore.addDevice
      (Device.mk 0 "Sensor2" "humidity" "SN-002" "2024-02-02" 1)).1 = false ∧
    lastIntStore.initialized ∧
    (lastIntStore.addDevice (Device.mk 0 "Sensor2" "humidity" "SN-002" "2024-02-02" 1)).1 =
      true ∧
    (lastIntStore.addDevice
      (Device.mk 0 "Sensor2" "humidity" "SN-002" "2024-02-02" 1)).2.devices =
        lastIntStore.devices ++
          [DeviceRow.mk 2147483648 "Sensor2" "humidity" "SN-002" "2024-02-02" (some 1)] ∧
    (lastIntStore.addDevice
      (Device.mk 0 "Sensor2" "humidity" "SN-002" "2024-02-02" 1)).2.getDevice 2147483648 =
        none := by
  decide

/-- C1 as amended (create/read round trip): in an initialized store holding a
location with the id `device.location_id` (a C++ `int`) and no device with
the serial number of `device`, when name, type, serial number and creation
date hold no NUL character and the next device rowid, one more than the
largest one used, is in the range of `int`, `addDevice` returns true, appends
exactly one device row, under that id, which no device had before, leaves the
locations alone, and `getDevice` of the new id returns the new id and the
supplied name, type, serial number, creation date and location id. -/
theorem addDevice_getDevice_roundtrip (self : DatabaseManager) (device : Device)
    (hinit : self.initialized)
    (hloc : ∃ l ∈ self.locations, l.id = device.location_id)
    (hser : ∀ r ∈ self.devices, r.serial_number ≠ device.serial_number)
    (hint : isInt device.location_id)
    (hname : isCString device.name) (htype : isCString device.type)
    (hserial : isCString device.serial_number) (hdate : isCString device.creation_date)
    (hroom : isInt (self.lastDeviceRowid + 1)) :
    ∃ newId : Int,
      newId = self.lastDeviceRowid + 1 ∧
      (self.addDevice device).1 = true ∧
      (∀ r ∈ self.devices, r.id ≠ newId) ∧
      (self.addDevice device).2.devices = self.devices ++
        [DeviceRow.mk newId device.name device.type device.serial_number device.creation_date
          (some device.location_id)] ∧
      (self.addDevice device).2.locations = self.locations ∧
      (self.addDevice device).2.getDevice newId =
        some (Device.mk newId device.name device.type device.serial_number
          device.creation_date device.location_id) := by
  rcases self with ⟨nm, _ | db⟩
  · exact absurd hinit (by simp [DatabaseManager.initialized])
  · obtain ⟨hfk, htab, -, -, -, -⟩ : db.ready := hinit
    simp only [DatabaseManager.devices, DatabaseManager.locations,
      DatabaseManager.lastDeviceRowid] at hloc hser hroom ⊢
    have hlt : lastRowid db.devices_seq (db.devices.map (fun r => r.id)) < INT64_MAX := by
      unfold isInt INT_MAX at hroom
      unfold INT64_MAX
      omega
    have hnext := nextRowid_of_lt _ _ hlt
    obtain ⟨-, -, hlast⟩ := lt_nextRowid _ _ _ hnext
    have hany : db.devices.any (fun r => r.serial_number == device.serial_number) = false := by
      simp only [List.any_eq_false, beq_iff_eq]
      exact fun r hr => hser r hr
    have hfkh : fkHolds db.locations (some device.location_id) = true := by
      obtain ⟨l, hl, hid⟩ := hloc
      simp only [fkHolds, List.any_eq_true, beq_iff_eq]
      exact ⟨l, hl, hid⟩
    have hfresh : ∀ r ∈ db.devices,
        r.id ≠ lastRowid db.devices_seq (db.devices.map (fun r => r.id)) + 1 := by
      intro r hr
      exact ne_of_lt (hlast r.id (List.mem_map_of_mem _ hr))
    have hadd : DatabaseManager.addDevice (DatabaseManager.mk nm (some db)) device =
        (true, DatabaseManager.mk nm (some { db with
          devices := db.devices ++
            [DeviceRow.mk (lastRowid db.devices_seq (db.devices.map (fun r => r.id)) + 1)
              device.name device.type device.serial_number device.creation_date
              (some device.location_id)]
          devices_seq := lastRowid db.devices_seq (db.devices.map (fun r => r.id)) + 1 })) := by
      rw [addDevice_open nm db device htab, hnext, c_str_of_isCString _ hname,
        c_str_of_isCString _ htype, c_str_of_isCString _ hserial, c_str_of_isCString _ hdate]
      simp only [hany, hfkh, hfk, Bool.not_true, Bool.and_false, Bool.false_eq_true, if_false]
    refine ⟨lastRowid db.devices_seq (db.devices.map (fun r => r.id)) + 1, rfl, ?_, ?_, ?_,
      ?_, ?_⟩
    · rw [hadd]
    · exact hfresh
    · rw [hadd]
    · rw [hadd]
    · have hfilter : db.devices.filter (fun r =>
          lastRowid db.devices_seq (db.devices.map (fun r => r.id)) + 1 == r.id) = [] := by
        simp only [List.filter_eq_nil_iff, beq_iff_eq]
        exact fun r hr h => hfresh r hr h.symm
      rw [hadd]
      simp only
      rw [getDevice_open]
      · simp [toInt32_of_isInt _ hroom, List.filter_append, hfilter, readDevice,
          sqlite3_column_int, toInt32_of_isInt _ hint]
      · exact htab

/-- The round trip of C1 on `sampleStore` and a second sensor. -/
theorem addDevice_getDevice_roundtrip_witness :
    sampleStore.initialized ∧ isInt (sampleStore.lastDeviceRowid + 1) ∧
    ∃ newId : Int,
      newId = sampleStore.lastDeviceRowid + 1 ∧
      (sampleStore.addDevice (Device.mk 0 "Sensor2" "humidity" "SN-002" "2024-02-02" 1)).1 = true ∧
      (∀ r ∈ sampleStore.devices, r.id ≠ newId) ∧
      (sampleStore.addDevice (Device.mk 0 "Sensor2" "humidity" "SN-002" "2024-02-02" 1)).2.devices =
        sampleStore.devices ++
          [DeviceRow.mk newId "Sensor2" "humidity" "SN-002" "2024-02-02" (some 1)] ∧
      (sampleStore.addDevice
        (Device.mk 0 "Sensor2" "humidity" "SN-002" "2024-02-02" 1)).2.locations =
        sampleStore.locations ∧
      (sampleStore.addDevice
        (Device.mk 0 "Sensor2" "humidity" "SN-002" "2024-02-02" 1)).2.getDevice newId =
        some (Device.mk newId "Sensor2" "humidity" "SN-002" "2024-02-02" 1) :=
  ⟨by decide, by decide,
    addDevice_getDevice_roundtrip sampleStore
      (Device.mk 0 "Sensor2" "humidity" "SN-002" "2024-02-02" 1)
      (by decide) ⟨LocationRow.mk 1 "Lab" "room", by decide, by decide⟩ (by decide) (by decide)
      (by decide) (by decide) (by decide) (by decide) (by decide)⟩

/-- C2 (update is a full replace), evaluated on the code: in `sampleStore`,
which holds device 1 and location 1, `updateDevice` of a device with id 1, a
serial number no other device uses and location 1 returns true, and
`getDevice 1` still returns the old row, not the supplied device. -/
theorem updateDevice_keeps_old_row :
    sampleStore.initialized ∧
    (sampleStore.updateDevice (Device.mk 1 "Renamed" "humidity" "SN-002" "2024-02-02" 1)).1 = true ∧
    (sampleStore.updateDevice
      (Device.mk 1 "Renamed" "humidity" "SN-002" "2024-02-02" 1)).2.getDevice 1 =
        some (Device.mk 1 "Sensor1" "temperature" "SN-001" "2024-01-01" 1) ∧
    (sampleStore.updateDevice
      (Device.mk 1 "Renamed" "humidity" "SN-002" "2024-02-02" 1)).2.getDevice 1 ≠
        some (Device.mk 1 "Renamed" "humidity" "SN-002" "2024-02-02" 1) := by
  decide

/-- On an open handle with the tables present `updateDevice` selects no row: it
returns true and changes nothing. -/
theorem updateDevice_open (nm : String) (db : Sqlite3) (device : Device)
    (htab : db.tables = true) :
    DatabaseManager.updateDevice (DatabaseManager.mk nm (some db)) device =
      (true, DatabaseManager.mk nm (some db)) := by
  have hp : (Stmt.mk Sql.updateDevice [(5, SqlValue.integer device.id),
      (5, SqlValue.integer device.location_id), (4, SqlValue.text (c_str device.creation_date)),
      (3, SqlValue.text (c_str device.serial_number)), (2, SqlValue.text (c_str device.type)),
      (1, SqlValue.text (c_str device.name))]).param 6 = SqlValue.null := rfl
  have hany : db.devices.any (fun r => idMatches SqlValue.null r.id) = false := by
    simp [idMatches]
  simp only [DatabaseManager.updateDevice, sqlite3_prepare_v2, htab, if_true, updateDevice_stmt,
    executeStatement_open, sqlite3_step, stepUpdateDevice, hp, hany]
  rfl

/-- The outcome of `deleteDevice` on an open handle with the tables present. -/
theorem deleteDevice_open (nm : String) (db : Sqlite3) (id : Int) (htab : db.tables = true) :
    DatabaseManager.deleteDevice (DatabaseManager.mk nm (some db)) id =
      (true, DatabaseManager.mk nm
        (some { db with devices := db.devices.filter (fun r => !(id == r.id)) })) := by
  have hp : (Stmt.mk Sql.deleteDevice [(1, SqlValue.integer id)]).param 1 =
      SqlValue.integer id := rfl
  simp only [DatabaseManager.deleteDevice, sqlite3_prepare_v2, htab, if_true,
    bind_int_one _ placeholders_deleteDevice, executeStatement_open, sqlite3_step,
    stepDeleteDevice, hp, idMatches]
  rfl

/-- The outcome of `deleteLocation` on an open handle with the tables present. -/
theorem deleteLocation_open (nm : String) (db : Sqlite3) (id : Int) (htab : db.tables = true) :
    DatabaseManager.deleteLocation (DatabaseManager.mk nm (some db)) id =
      if db.foreign_keys && db.locations.any (fun l =>
          id == l.id && db.devices.any (fun d => d.location_id == some l.id)) then
        (false, DatabaseManager.mk nm (some db))
      else
        (true, DatabaseManager.mk nm
          (some { db with locations := db.locations.filter (fun r => !(id == r.id)) })) := by
  have hp : (Stmt.mk Sql.deleteLocation [(1, SqlValue.integer id)]).param 1 =
      SqlValue.integer id := rfl
  simp only [DatabaseManager.deleteLocation, sqlite3_prepare_v2, htab, if_true,
    bind_int_one _ placeholders_deleteLocation, executeStatement_open, sqlite3_step,
    stepDeleteLocation, hp, idMatches]
  split_ifs <;> rfl

/-- C3 (restrict-on-delete is atomic): in an initialized store, for the id `L`
of a location row that is the `location_id` of at least one device row,
`deleteLocation L` returns false and leaves the whole store, locations and
devices, as it was. -/
theorem deleteLocation_referenced_refused (self : DatabaseManager) (L : Int)
    (hinit : self.initialized)
    (hloc : ∃ l ∈ self.locations, l.id = L)
    (href : ∃ d ∈ self.devices, d.location_id = some L) :
    (self.deleteLocation L).1 = false ∧ (self.deleteLocation L).2 = self := by
  rcases self with ⟨nm, _ | db⟩
  · exact absurd hinit (by simp [DatabaseManager.initialized])
  · obtain ⟨hfk, htab, -, -, -⟩ : db.ready := hinit
    simp only [DatabaseManager.devices, DatabaseManager.locations] at hloc href
    obtain ⟨l, hl, hlid⟩ := hloc
    obtain ⟨d, hd, hdl⟩ := href
    have hany : db.locations.any (fun l =>
        L == l.id && db.devices.any (fun d => d.location_id == some l.id)) = true := by
      simp only [List.any_eq_true, Bool.and_eq_true, beq_iff_eq]
      exact ⟨l, hl, hlid.symm, d, hd, by rw [hdl, hlid]⟩
    simp [deleteLocation_open nm db L htab, hfk, hany]

/-- The refusal of C3 on `sampleStore`, whose device 1 sits in location 1. -/
theorem deleteLocation_referenced_refused_witness :
    sampleStore.initialized ∧
    (sampleStore.deleteLocation 1).1 = false ∧ (sampleStore.deleteLocation 1).2 = sampleStore :=
  ⟨by decide,
    deleteLocation_referenced_refused sampleStore 1 (by decide)
      ⟨LocationRow.mk 1 "Lab" "room", by decide, by decide⟩
      ⟨DeviceRow.mk 1 "Sensor1" "temperature" "SN-001" "2024-01-01" (some 1), by decide,
        by decide⟩⟩

/-- C4 (serial numbers are unique): in an initialized store that holds a device
with the serial number of `device`, `addDevice` returns false and leaves the
whole store as it was, and the store holds exactly one device row with that
serial number. -/
theorem addDevice_duplicate_serial_refused (self : DatabaseManager) (device : Device)
    (hinit : self.initialized)
    (hdup : ∃ r ∈ self.devices, r.serial_number = device.serial_number) :
    (self.addDevice device).1 = false ∧ (self.addDevice device).2 = self ∧
      (((self.addDevice device).2.devices.map (fun r => r.serial_number)).count
        device.serial_number) = 1 := by
  rcases self with ⟨nm, _ | db⟩
  · exact absurd hinit (by simp [DatabaseManager.initialized])
  · obtain ⟨-, htab, -, hser, -, htext, -⟩ : db.ready := hinit
    simp only [DatabaseManager.devices] at hdup
    obtain ⟨r, hr, hrs⟩ := hdup
    have hcs : c_str device.serial_number = device.serial_number := by
      rw [← hrs]
      exact (htext r hr).2.2.1
    have hany : db.devices.any (fun r => r.serial_number == c_str device.serial_number) =
        true := by
      simp only [List.any_eq_true, beq_iff_eq, hcs]
      exact ⟨r, hr, hrs⟩
    have hmem : device.serial_number ∈ db.devices.map (fun r => r.serial_number) :=
      List.mem_map.mpr ⟨r, hr, hrs⟩
    have hadd : DatabaseManager.addDevice (DatabaseManager.mk nm (some db)) device =
        (false, DatabaseManager.mk nm (some db)) := by
      rw [addDevice_open nm db device htab]
      cases nextRowid db.devices_seq (db.devices.map (fun r => r.id)) with
      | none => rfl
      | some id => simp only [hany, if_true]
    refine ⟨?_, ?_, ?_⟩
    · rw [hadd]
    · rw [hadd]
    · rw [hadd]
      exact List.count_eq_one_of_mem hser hmem

/-- The refusal of C4 on `sampleStore` and a second device with serial number
`SN-001`. -/
theorem addDevice_duplicate_serial_refused_witness :
    sampleStore.initialized ∧
    (sampleStore.addDevice (Device.mk 0 "Copy" "humidity" "SN-001" "2024-03-03" 1)).1 = false ∧
    (sampleStore.addDevice (Device.mk 0 "Copy" "humidity" "SN-001" "2024-03-03" 1)).2 =
      sampleStore ∧
    (((sampleStore.addDevice
      (Device.mk 0 "Copy" "humidity" "SN-001" "2024-03-03" 1)).2.devices.map
        (fun r => r.serial_number)).count "SN-001") = 1 :=
  ⟨by decide,
    addDevice_duplicate_serial_refused sampleStore
      (Device.mk 0 "Copy" "humidity" "SN-001" "2024-03-03" 1) (by decide)
      ⟨DeviceRow.mk 1 "Sensor1" "temperature" "SN-001" "2024-01-01" (some 1), by decide,
        by decide⟩⟩

/-- C5 (filter values never reach the query text), evaluated on the code: two
calls that agree on which arguments are empty hand different texts to
`sqlite3_prepare_v2`, because the value of the name filter is spliced into the
text, quotes included. -/
theorem filterQuery_splices_values :
    filterQuery "Sensor1" "" "" "" "" "" =
      "SELECT devices.* FROM devices INNER JOIN locations ON devices.location_id = locations.id WHERE 1 = 1 AND devices.name = \x27Sensor1\x27" ∧
    filterQuery "x\x27 OR \x271\x27=\x271" "" "" "" "" "" =
      "SELECT devices.* FROM devices INNER JOIN locations ON devices.location_id = locations.id WHERE 1 = 1 AND devices.name = \x27x\x27 OR \x271\x27=\x271\x27" ∧
    filterQuery "Sensor1" "" "" "" "" "" ≠ filterQuery "x\x27 OR \x271\x27=\x271" "" "" "" "" "" := by
  decide

/-- One conditional append of `filterQuery` appends one clause. -/
theorem filterClause_step (sql opening value : String) :
    (if value ≠ "" then sql ++ (opening ++ value ++ "\x27") else sql) =
      sql ++ filterClause opening value := by
  unfold filterClause
  by_cases h : value = ""
  · simp [h]
  · simp [h]

/-- C6 (shape of the filter predicate): the text `getDevicesWithFilters`
assembles is the base text followed, in the order name, type, serial number,
start date, end date, location, by one clause for each non-empty argument and
by nothing for an empty one; with six empty arguments it is the base text. -/
theorem filterQuery_shape
    (name type serial_number creation_date_start creation_date_end location : String) :
    filterQuery name type serial_number creation_date_start creation_date_end location =
      baseQuery ++ filterClause " AND devices.name = \x27" name ++
        filterClause " AND devices.type = \x27" type ++
        filterClause " AND devices.serial_number = \x27" serial_number ++
        filterClause " AND devices.creation_date >= \x27" creation_date_start ++
        filterClause " AND devices.creation_date <= \x27" creation_date_end ++
        filterClause " AND locations.name = \x27" location ∧
    filterQuery "" "" "" "" "" "" = baseQuery := by
  refine ⟨?_, by decide⟩
  simp only [filterQuery, filterClause_step, baseQuery]

/-- C7 (delete of a missing id is reported as not found), evaluated on the
code: `sampleStore` holds no device and no location with id 7, yet
`deleteDevice 7` and `deleteLocation 7` return true, and both handlers answer
200 with the success message; the store is unchanged. -/
theorem delete_missing_id_answers_ok :
    sampleStore.initialized ∧
    (∀ r ∈ sampleStore.devices, r.id ≠ 7) ∧ (∀ r ∈ sampleStore.locations, r.id ≠ 7) ∧
    sampleStore.deleteDevice 7 = (true, sampleStore) ∧
    sampleStore.deleteLocation 7 = (true, sampleStore) ∧
    (sampleServer.handleDeleteDevice freshResponse (Request.mk [("id", "7")] [] none)).map
      (fun r => (r.1.status, r.2.database_)) = some (200, sampleStore) ∧
    (sampleServer.handleDeleteDevice freshResponse (Request.mk [("id", "7")] [] none)).map
      (fun r => r.1.body) =
        some (Body.text "\x7b\"message\": \"Device deleted successfully.\"\x7d\n") ∧
    (sampleServer.handleDeleteLocation freshResponse (Request.mk [("id", "7")] [] none)).map
      (fun r => (r.1.status, r.2.database_)) = some (200, sampleStore) ∧
    (sampleServer.handleDeleteLocation freshResponse (Request.mk [("id", "7")] [] none)).map
      (fun r => r.1.body) =
        some (Body.text "\x7b\"message\": \"Location deleted successfully.\"\x7d\n") := by
  refine ⟨by decide, by decide, by decide, by decide, by decide, by decide, rfl, by decide, rfl⟩

/-- C8 (update of a missing device is a failure), evaluated on the code:
`sampleStore` holds no device with id 7, yet `updateDevice` returns true for
it and `handleUpdateDevice` answers 200 with the success message. -/
theorem update_missing_device_answers_ok :
    sampleStore.initialized ∧
    (∀ r ∈ sampleStore.devices, r.id ≠ 7) ∧
    sampleStore.updateDevice (Device.mk 7 "Renamed" "humidity" "SN-002" "2024-02-02" 1) =
      (true, sampleStore) ∧
    (sampleServer.handleUpdateDevice freshResponse
      (Request.mk [("id", "7")] []
        (some (JsonValue.object
          [("name", JsonValue.string "Renamed"), ("type", JsonValue.string "humidity"),
           ("serial_number", JsonValue.string "SN-002"),
           ("creation_date", JsonValue.string "2024-02-02"),
           ("location_id", JsonValue.int 1)])))).map
      (fun r => (r.1.status, r.2.database_)) = some (200, sampleStore) ∧
    (sampleServer.handleUpdateDevice freshResponse
      (Request.mk [("id", "7")] []
        (some (JsonValue.object
          [("name", JsonValue.string "Renamed"), ("type", JsonValue.string "humidity"),
           ("serial_number", JsonValue.string "SN-002"),
           ("creation_date", JsonValue.string "2024-02-02"),
           ("location_id", JsonValue.int 1)])))).map
      (fun r => r.1.body) =
        some (Body.text "\x7b\"message\": \"Device updated successfully.\"\x7d\n") := by
  refine ⟨by decide, by decide, by decide, by decide, rfl⟩

/-- C9 as stated fails: a request whose only query parameter is the
unrecognized key `foo` is handed to the filtered read, although none of the six
recognized keys has a non-empty value. -/
theorem dispatchGetDevices_unrecognized_key :
    ¬ (dispatchGetDevices (Request.mk [] [("foo", "bar")] none) =
        ListHandler.handleGetDevicesWithFilters ↔
      ∃ key ∈ recognizedKeys, parametersGet [("foo", "bar")] key ≠ "") := by
  decide

/-- C9 as amended (filter detection): `handleGetDevices` hands the request to
the filtered read exactly when some query parameter, whatever its key, has a
non-empty value, and to read-all otherwise. -/
theorem handleGetDevices_dispatch (run : String → Sqlite3 → Option (List DeviceRow))
    (self : ServerManager) (res : Response) (req : Request) :
    (dispatchGetDevices req = ListHandler.handleGetDevicesWithFilters ↔
      ∃ q ∈ req.query, q.2 ≠ "") ∧
    (dispatchGetDevices req = ListHandler.handleGetAllDevices ↔ ∀ q ∈ req.query, q.2 = "") ∧
    self.handleGetDevices run res req =
      (if ∃ q ∈ req.query, q.2 ≠ "" then self.handleGetDevicesWithFilters run res req
        else self.handleGetAllDevices res req) := by
  have h : hasFilters req = true ↔ ∃ q ∈ req.query, q.2 ≠ "" := by
    simp [hasFilters, List.any_eq_true]
  unfold ServerManager.handleGetDevices dispatchGetDevices
  by_cases hf : hasFilters req = true
  · have hex := h.mp hf
    simp only [hf, if_true, hex, true_iff, true_and]
    refine ⟨?_, trivial⟩
    simp only [reduceCtorEq, false_iff, not_forall]
    obtain ⟨q, hq, hne⟩ := hex
    exact ⟨q, hq, hne⟩
  · have hex : ¬ ∃ q ∈ req.query, q.2 ≠ "" := fun hex => hf (h.mpr hex)
    simp only [hf, if_false, hex, reduceCtorEq, false_iff, not_false_eq_true, true_and, true_iff]
    push_neg at hex
    exact ⟨hex, trivial⟩

/-- Appending to a JSON array in a loop appends the mapped list. -/
theorem foldl_append_array {α : Type} (f : α → JsonValue) (l : List α) :
    ∀ xs : List JsonValue,
      l.foldl (fun acc x => acc.append (f x)) (JsonValue.array xs) =
        JsonValue.array (xs ++ l.map f) := by
  induction l with
  | nil => intro xs; simp
  | cons a t ih =>
    intro xs
    have hstep : (JsonValue.array xs).append (f a) = JsonValue.array (xs ++ [f a]) := rfl
    rw [List.foldl_cons, hstep, ih, List.map_cons, List.append_assoc, List.singleton_append]

/-- Appending the objects of a non-empty list to a null value gives the array
of the objects. -/
theorem foldl_append_null {α : Type} (f : α → JsonValue) (l : List α) (h : l ≠ []) :
    l.foldl (fun acc x => acc.append (f x)) JsonValue.null = JsonValue.array (l.map f) := by
  cases l with
  | nil => exact absurd rfl h
  | cons a t =>
    have hstep : JsonValue.null.append (f a) = JsonValue.array [f a] := rfl
    rw [List.foldl_cons, hstep, foldl_append_array, List.map_cons, List.singleton_append]

/-- The text of `addLocation` has two placeholders and that of `updateLocation`
three. -/
theorem placeholders_locations :
    Sql.insertLocation.placeholders = 2 ∧ Sql.updateLocation.placeholders = 3 := by decide

/-- The outcome of `addLocation` on an open handle with the tables present. -/
theorem addLocation_open (nm : String) (db : Sqlite3) (location : Location)
    (htab : db.tables = true) :
    DatabaseManager.addLocation (DatabaseManager.mk nm (some db)) location =
      match nextRowid db.locations_seq (db.locations.map (fun r => r.id)) with
      | none => (false, DatabaseManager.mk nm (some db))
      | some id =>
        (true, DatabaseManager.mk nm (some { db with
          locations := db.locations ++
            [LocationRow.mk id (c_str location.name) (c_str location.type)]
          locations_seq := id })) := by
  have hs : sqlite3_bind_text (sqlite3_bind_text (Stmt.mk Sql.insertLocation []) 1
      location.name) 2 location.type =
      Stmt.mk Sql.insertLocation [(2, SqlValue.text (c_str location.type)),
        (1, SqlValue.text (c_str location.name))] := rfl
  have h1 : (Stmt.mk Sql.insertLocation [(2, SqlValue.text (c_str location.type)),
      (1, SqlValue.text (c_str location.name))]).param 1 =
      SqlValue.text (c_str location.name) := rfl
  have h2 : (Stmt.mk Sql.insertLocation [(2, SqlValue.text (c_str location.type)),
      (1, SqlValue.text (c_str location.name))]).param 2 =
      SqlValue.text (c_str location.type) := rfl
  simp only [DatabaseManager.addLocation, sqlite3_prepare_v2, htab, if_true, hs,
    executeStatement_open, sqlite3_step, stepInsertLocation, h1, h2, SqlValue.asText]
  cases nextRowid db.locations_seq (db.locations.map (fun r => r.id)) <;> rfl

/-- The outcome of `updateLocation` on an open handle with the tables present. -/
theorem updateLocation_open (nm : String) (db : Sqlite3) (location : Location)
    (htab : db.tables = true) :
    DatabaseManager.updateLocation (DatabaseManager.mk nm (some db)) location =
      (true, DatabaseManager.mk nm (some { db with
        locations := db.locations.map (fun r =>
          if location.id == r.id then LocationRow.mk r.id (c_str location.name) (c_str location.type)
          else r) })) := by
  obtain ⟨fk, tb, ds, ls, s1, s2⟩ := db
  simp only at htab
  subst htab
  have htab : (Sqlite3.mk fk true ds ls s1 s2).tables = true := rfl
  have hs : sqlite3_bind_int (sqlite3_bind_text (sqlite3_bind_text
      (Stmt.mk Sql.updateLocation []) 1 location.name) 2 location.type) 3 location.id =
      Stmt.mk Sql.updateLocation [(3, SqlValue.integer location.id),
        (2, SqlValue.text (c_str location.type)),
        (1, SqlValue.text (c_str location.name))] := rfl
  have h1 : (Stmt.mk Sql.updateLocation [(3, SqlValue.integer location.id),
      (2, SqlValue.text (c_str location.type)),
        (1, SqlValue.text (c_str location.name))]).param 1 =
      SqlValue.text (c_str location.name) := rfl
  have h2 : (Stmt.mk Sql.updateLocation [(3, SqlValue.integer location.id),
      (2, SqlValue.text (c_str location.type)),
        (1, SqlValue.text (c_str location.name))]).param 2 =
      SqlValue.text (c_str location.type) := rfl
  have h3 : (Stmt.mk Sql.updateLocation [(3, SqlValue.integer location.id),
      (2, SqlValue.text (c_str location.type)),
        (1, SqlValue.text (c_str location.name))]).param 3 =
      SqlValue.integer location.id := rfl
  simp only [DatabaseManager.updateLocation, sqlite3_prepare_v2, htab, if_true, hs,
    executeStatement_open, sqlite3_step, stepUpdateLocation, h1, h2, h3, SqlValue.asText,
    idMatches]
  by_cases hany : ls.any (fun r => location.id == r.id) = true
  · simp only [hany, Bool.not_true, Bool.false_eq_true, if_false]
    rfl
  · have hmap : ls.map (fun r =>
        if location.id == r.id then LocationRow.mk r.id (c_str location.name) (c_str location.type)
        else r) = ls := by
      simp only [List.any_eq_true, not_exists, not_and] at hany
      conv_rhs => rw [← List.map_id ls]
      apply List.map_congr_left
      intro r hr
      simp [hany r hr]
    simp only [hany, Bool.not_false, if_true, hmap]
    rfl

/-- Every repository call keeps an open handle open, the pragma and the tables
in place, and referential integrity intact. -/
theorem apply_preserves (nm : String) (db : Sqlite3) (op : StoreOp)
    (hfk : db.foreign_keys = true) (htab : db.tables = true)
    (hri : ∀ d ∈ db.devices, ∃ l ∈ db.locations, d.location_id = some l.id) :
    ∃ db2, (DatabaseManager.mk nm (some db)).apply op = DatabaseManager.mk nm (some db2) ∧
      db2.foreign_keys = true ∧ db2.tables = true ∧
      ∀ d ∈ db2.devices, ∃ l ∈ db2.locations, d.location_id = some l.id := by
  cases op with
  | addDevice device =>
    simp only [DatabaseManager.apply, addDevice_open nm db device htab]
    cases nextRowid db.devices_seq (db.devices.map (fun r => r.id)) with
    | none => exact ⟨db, rfl, hfk, htab, hri⟩
    | some newId =>
    simp only
    split_ifs with h1 h2
    · exact ⟨db, rfl, hfk, htab, hri⟩
    · exact ⟨db, rfl, hfk, htab, hri⟩
    · refine ⟨_, rfl, hfk, htab, ?_⟩
      intro d hd
      simp only [List.mem_append, List.mem_singleton] at hd
      rcases hd with hd | hd
      · exact hri d hd
      · have hfkh : fkHolds db.locations (some device.location_id) = true := by
          simpa [hfk] using h2
        simp only [fkHolds, List.any_eq_true, beq_iff_eq] at hfkh
        obtain ⟨l, hl, hid⟩ := hfkh
        exact ⟨l, hl, by rw [hd, hid]⟩
  | updateDevice device =>
    simp only [DatabaseManager.apply, updateDevice_open nm db device htab]
    exact ⟨db, rfl, hfk, htab, hri⟩
  | deleteDevice id =>
    simp only [DatabaseManager.apply, deleteDevice_open nm db id htab]
    refine ⟨_, rfl, hfk, htab, ?_⟩
    intro d hd
    exact hri d (List.mem_of_mem_filter hd)
  | addLocation location =>
    simp only [DatabaseManager.apply, addLocation_open nm db location htab]
    cases nextRowid db.locations_seq (db.locations.map (fun r => r.id)) with
    | none => exact ⟨db, rfl, hfk, htab, hri⟩
    | some newId =>
      refine ⟨_, rfl, hfk, htab, ?_⟩
      intro d hd
      obtain ⟨l, hl, hid⟩ := hri d hd
      exact ⟨l, List.mem_append_left _ hl, hid⟩
  | updateLocation location =>
    simp only [DatabaseManager.apply, updateLocation_open nm db location htab]
    refine ⟨_, rfl, hfk, htab, ?_⟩
    intro d hd
    obtain ⟨l, hl, hid⟩ := hri d hd
    refine ⟨if location.id == l.id then
        LocationRow.mk l.id (c_str location.name) (c_str location.type) else l,
      List.mem_map_of_mem _ hl, ?_⟩
    split_ifs <;> exact hid
  | deleteLocation id =>
    simp only [DatabaseManager.apply, deleteLocation_open nm db id htab]
    split_ifs with h1
    · exact ⟨db, rfl, hfk, htab, hri⟩
    · refine ⟨_, rfl, hfk, htab, ?_⟩
      intro d hd
      obtain ⟨l, hl, hid⟩ := hri d hd
      refine ⟨l, ?_, hid⟩
      simp only [List.mem_filter, Bool.not_eq_true', beq_eq_false_iff_ne, ne_eq]
      refine ⟨hl, ?_⟩
      intro hhit
      apply h1
      simp only [hfk, Bool.true_and, List.any_eq_true, Bool.and_eq_true, beq_iff_eq]
      exact ⟨l, hl, hhit, d, hd, hid⟩

/-- Any sequence of repository calls from a store with referential integrity
ends in such a store. -/
theorem foldl_apply_preserves (nm : String) (ops : List StoreOp) :
    ∀ db : Sqlite3, db.foreign_keys = true → db.tables = true →
      (∀ d ∈ db.devices, ∃ l ∈ db.locations, d.location_id = some l.id) →
      ∃ db2, ops.foldl DatabaseManager.apply (DatabaseManager.mk nm (some db)) =
          DatabaseManager.mk nm (some db2) ∧
        db2.foreign_keys = true ∧ db2.tables = true ∧
        ∀ d ∈ db2.devices, ∃ l ∈ db2.locations, d.location_id = some l.id := by
  induction ops with
  | nil => intro db hfk htab hri; exact ⟨db, rfl, hfk, htab, hri⟩
  | cons op rest ih =>
    intro db hfk htab hri
    obtain ⟨db1, h1, hfk1, htab1, hri1⟩ := apply_preserves nm db op hfk htab hri
    simp only [List.foldl_cons, h1]
    exact ih db1 hfk1 htab1 hri1

/-- C14 (referential integrity is an invariant): in every store reached from
the empty initialized store by a finite sequence of `addDevice`,
`updateDevice`, `deleteDevice`, `addLocation`, `updateLocation` and
`deleteLocation` calls with arbitrary arguments, the `location_id` of every
device row is the id of a location row. -/
theorem referentialIntegrity_invariant (ops : List StoreOp) :
    (ops.foldl DatabaseManager.apply emptyStore).referentialIntegrity := by
  obtain ⟨db2, h, -, -, hri⟩ := foldl_apply_preserves "../device.db" ops
    { foreign_keys := true, tables := true, devices := [], locations := []
      devices_seq := 0, locations_seq := 0 } rfl rfl (by simp)
  have he : emptyStore = DatabaseManager.mk "../device.db"
      (some { foreign_keys := true, tables := true, devices := [], locations := []
              devices_seq := 0, locations_seq := 0 }) := rfl
  rw [he, h]
  simpa [DatabaseManager.referentialIntegrity, DatabaseManager.devices,
    DatabaseManager.locations] using hri

/-- C11 (disallowed methods): with the registrations of `init`, every path and
method has exactly one handler, the one of the dispatch table; the handler is
`handleNotAllowed` exactly for POST on the two id paths and PUT and DELETE on
the two collection paths; `handleNotAllowed` answers 405 with the fixed body
whatever the request, and the dispatch of each of the six pairs returns that
answer and leaves the server, its store included, as it was. -/
theorem disallowed_methods_answer_405 (run : String → Sqlite3 → Option (List DeviceRow))
    (self : ServerManager) (res : Response) (req req2 : Request) (path : Path)
    (method : Method) :
    self.routed.registered path method = [routeTable path method] ∧
    (routeTable path method = Handler.handleNotAllowed ↔ (path, method) ∈ disallowed) ∧
    self.routed.database_ = self.database_ ∧
    self.routed.handleNotAllowed res req =
      Response.mk 405 res.headers (Body.text "\x7b\"error\": \"Method not allowed.\"\x7d\n") ∧
    self.routed.handleNotAllowed res req = self.routed.handleNotAllowed res req2 ∧
    self.routed.dispatch run Path.devicesId Method.POST res req =
      some (self.routed.handleNotAllowed res req, self.routed) ∧
    self.routed.dispatch run Path.locationsId Method.POST res req =
      some (self.routed.handleNotAllowed res req, self.routed) ∧
    self.routed.dispatch run Path.devices Method.PUT res req =
      some (self.routed.handleNotAllowed res req, self.routed) ∧
    self.routed.dispatch run Path.devices Method.DELETE res req =
      some (self.routed.handleNotAllowed res req, self.routed) ∧
    self.routed.dispatch run Path.locations Method.PUT res req =
      some (self.routed.handleNotAllowed res req, self.routed) ∧
    self.routed.dispatch run Path.locations Method.DELETE res req =
      some (self.routed.handleNotAllowed res req, self.routed) := by
  refine ⟨?_, ?_, rfl, rfl, rfl, rfl, rfl, rfl, rfl, rfl, rfl⟩
  · cases path <;> cases method <;> rfl
  · cases path <;> cases method <;> decide

/-- C12 as stated fails: on the id string `abc` `handleGetDevice` throws
instead of answering with a 400-class status, and on `1abc` it reads the id 1,
calls the repository and answers 200. -/
theorem handleGetDevice_malformed_id :
    stoi "abc" = none ∧
    ¬ (∃ r, sampleServer.handleGetDevice freshResponse (Request.mk [("id", "abc")] [] none) =
        some r ∧ 400 ≤ r.1.status ∧ r.1.status < 500) ∧
    stoi "1abc" = some 1 ∧
    (sampleServer.handleGetDevice freshResponse (Request.mk [("id", "1abc")] [] none)).map
      (fun r => r.1.status) = some 200 := by
  refine ⟨by decide, ?_, by decide, by decide⟩
  have h : sampleServer.handleGetDevice freshResponse (Request.mk [("id", "abc")] [] none) =
      none := rfl
  rw [h]
  simp

/-- C12 as amended (malformed id): when `std::stoi` throws on the `id` path
parameter, each of the six id-taking handlers throws as well: it returns no
response, and since the conversion is its first statement it has not called
the repository. -/
theorem malformed_id_throws (self : ServerManager) (res : Response) (req : Request)
    (h : stoi (parametersGet req.params "id") = none) :
    self.handleGetDevice res req = none ∧ self.handleUpdateDevice res req = none ∧
    self.handleDeleteDevice res req = none ∧ self.handleGetLocation res req = none ∧
    self.handleUpdateLocation res req = none ∧ self.handleDeleteLocation res req = none := by
  refine ⟨?_, ?_, ?_, ?_, ?_, ?_⟩
  · simp [ServerManager.handleGetDevice, h]
  · simp [ServerManager.handleUpdateDevice, h]
  · simp [ServerManager.handleDeleteDevice, h]
  · simp [ServerManager.handleGetLocation, h]
  · simp [ServerManager.handleUpdateLocation, h]
  · simp [ServerManager.handleDeleteLocation, h]

/-- The strings `abc`, the empty string and `99999999999` make `std::stoi`
throw, `12abc` is read as 12; on `abc` the six handlers throw. -/
theorem malformed_id_throws_witness :
    stoi "abc" = none ∧ stoi "" = none ∧ stoi "99999999999" = none ∧ stoi "12abc" = some 12 ∧
    (sampleServer.handleGetDevice freshResponse (Request.mk [("id", "abc")] [] none) = none ∧
     sampleServer.handleUpdateDevice freshResponse (Request.mk [("id", "abc")] [] none) = none ∧
     sampleServer.handleDeleteDevice freshResponse (Request.mk [("id", "abc")] [] none) = none ∧
     sampleServer.handleGetLocation freshResponse (Request.mk [("id", "abc")] [] none) = none ∧
     sampleServer.handleUpdateLocation freshResponse (Request.mk [("id", "abc")] [] none) =
       none ∧
     sampleServer.handleDeleteLocation freshResponse (Request.mk [("id", "abc")] [] none) =
       none) :=
  ⟨by decide, by decide, by decide, by decide,
    malformed_id_throws sampleServer freshResponse (Request.mk [("id", "abc")] [] none)
      (by decide)⟩

/-- C18 (close is idempotent): `close` leaves the handle null; a second `close`
releases nothing and changes nothing; and the two closes of the tear-down
(`~ServerManager`, then `~DatabaseManager`) release at most one handle, leaving
the handle null. -/
theorem close_idempotent (self : DatabaseManager) (server : ServerManager) :
    self.close.1.db_ = none ∧
    self.close.1.close = (self.close.1, []) ∧
    server.destroy.2.length ≤ 1 ∧
    server.destroy.2 = server.database_.close.2 ∧
    server.destroy.1.database_.db_ = none := by
  rcases self with ⟨nm, _ | db⟩ <;> rcases server with ⟨c, ⟨nm2, _ | db2⟩, mux, serving⟩ <;>
    simp [DatabaseManager.close, ServerManager.destroy, ServerManager.stop]

/-- C19 (start-up failures are fatal), evaluated on the code: when the database
file cannot be opened, `DatabaseManager::init` takes its first early return and
the store is not initialized, yet the start-up sequence of `main` goes on to
register the routes and to enter `server_->run`. -/
theorem main_serves_after_failed_init :
    (DatabaseManager.mk "../device.db" none).initFails unopenable = true ∧
    ¬ (main unopenable).database_.initialized ∧
    (main unopenable).serving_ = true ∧
    (main unopenable).registered Path.devices Method.GET = [Handler.handleGetDevices] := by
  decide

/-- C20 (`updateDevice` changes no row): the statement `updateDevice` steps has
placeholder 5 bound twice, first to `location_id`, then to `id`, and
placeholder 6, the one of `WHERE id = ?`, not bound, hence NULL; in an
initialized store the call returns true and leaves the store, every device row
and every location row, as it was. -/
theorem updateDevice_changes_no_row (self : DatabaseManager) (device : Device)
    (hinit : self.initialized) :
    (sqlite3_bind_int (sqlite3_bind_int (sqlite3_bind_text (sqlite3_bind_text
      (sqlite3_bind_text (sqlite3_bind_text (Stmt.mk Sql.updateDevice []) 1 device.name) 2
        device.type) 3 device.serial_number) 4 device.creation_date) 5 device.location_id) 5
      device.id).bound.filter (fun b => b.1 == 5 || b.1 == 6) =
        [(5, SqlValue.integer device.id), (5, SqlValue.integer device.location_id)] ∧
    (sqlite3_bind_int (sqlite3_bind_int (sqlite3_bind_text (sqlite3_bind_text
      (sqlite3_bind_text (sqlite3_bind_text (Stmt.mk Sql.updateDevice []) 1 device.name) 2
        device.type) 3 device.serial_number) 4 device.creation_date) 5 device.location_id) 5
      device.id).param 6 = SqlValue.null ∧
    self.updateDevice device = (true, self) := by
  rcases self with ⟨nm, _ | db⟩
  · exact absurd hinit (by simp [DatabaseManager.initialized])
  · obtain ⟨-, htab, -, -, -⟩ : db.ready := hinit
    exact ⟨rfl, rfl, updateDevice_open nm db device htab⟩

/-- The no-op of C20 on `sampleStore` and a renamed device 1. -/
theorem updateDevice_changes_no_row_witness :
    sampleStore.initialized ∧
    sampleStore.updateDevice (Device.mk 1 "Renamed" "humidity" "SN-002" "2024-02-02" 1) =
      (true, sampleStore) :=
  ⟨by decide,
    (updateDevice_changes_no_row sampleStore
      (Device.mk 1 "Renamed" "humidity" "SN-002" "2024-02-02" 1) (by decide)).2.2⟩

/-- The first element of a filtered list is the first element found. -/
theorem head?_filter_eq_find? {α : Type} (p : α → Bool) (l : List α) :
    (l.filter p).head? = l.find? p := by
  induction l with
  | nil => rfl
  | cons a t ih =>
    by_cases h : p a = true
    · simp [List.filter_cons, List.find?_cons, h]
    · simp [List.filter_cons, List.find?_cons, h, ih]

/-- A list whose elements each expand to themselves is its own expansion. -/
theorem flatMap_eq_self {α : Type} (f : α → List α) (l : List α)
    (h : ∀ a ∈ l, f a = [a]) : l.flatMap f = l := by
  induction l with
  | nil => rfl
  | cons a t ih =>
    rw [List.flatMap_cons, h a (List.mem_cons_self a t),
      ih (fun b hb => h b (List.mem_cons_of_mem a hb))]
    rfl

/-- Among locations with pairwise distinct ids exactly one row has a given id
that occurs. -/
theorem filter_location_id (ls : List LocationRow) (k : Int)
    (hn : (ls.map (fun r => r.id)).Nodup) (hk : ∃ l ∈ ls, l.id = k) :
    (ls.filter (fun l => (some k : Option Int) == some l.id)).length = 1 := by
  induction ls with
  | nil => obtain ⟨l, hl, -⟩ := hk; exact absurd hl (List.not_mem_nil l)
  | cons a t ih =>
    simp only [List.map_cons, List.nodup_cons, List.mem_map, not_exists, not_and] at hn
    by_cases ha : a.id = k
    · subst ha
      have hnone : t.filter (fun l => (some a.id : Option Int) == some l.id) = [] := by
        simp only [List.filter_eq_nil_iff, beq_iff_eq, Option.some.injEq]
        intro l hl hlk
        exact hn.1 l hl hlk.symm
      have hcond : ((some a.id : Option Int) == some a.id) = true := beq_self_eq_true _
      rw [List.filter_cons, if_pos hcond, hnone]
      rfl
    · have hk2 : ∃ l ∈ t, l.id = k := by
        obtain ⟨l, hl, hlk⟩ := hk
        rcases List.mem_cons.mp hl with rfl | hl
        · exact absurd hlk ha
        · exact ⟨l, hl, hlk⟩
      have hcond : ¬ ((some k : Option Int) == some a.id) = true := by
        simp only [beq_iff_eq, Option.some.injEq]
        exact fun h => ha h.symm
      rw [List.filter_cons, if_neg hcond]
      exact ih hn.2 hk2

/-- Membership in the join: a device row that has a location row. -/
theorem mem_innerJoin (db : Sqlite3) (d : DeviceRow) :
    d ∈ innerJoin db ↔ d ∈ db.devices ∧ ∃ l ∈ db.locations, d.location_id = some l.id := by
  simp only [innerJoin, List.mem_flatMap, List.mem_map, List.mem_filter, beq_iff_eq]
  constructor
  · rintro ⟨a, ha, l, ⟨hl, hid⟩, rfl⟩
    exact ⟨ha, l, hl, hid⟩
  · rintro ⟨hd, l, hl, hid⟩
    exact ⟨d, hd, l, ⟨hl, hid⟩, rfl⟩

/-- With referential integrity and pairwise distinct location ids the join is
the device table. -/
theorem innerJoin_eq_devices (db : Sqlite3)
    (hn : (db.locations.map (fun r => r.id)).Nodup)
    (hri : ∀ d ∈ db.devices, ∃ l ∈ db.locations, d.location_id = some l.id) :
    innerJoin db = db.devices := by
  apply flatMap_eq_self
  intro d hd
  obtain ⟨l, hl, hid⟩ := hri d hd
  have hlen := filter_location_id db.locations l.id hn ⟨l, hl, rfl⟩
  rw [hid]
  generalize db.locations.filter (fun l2 => (some l.id : Option Int) == some l2.id) = fl at hlen
  match fl, hlen with
  | [x], _ => rfl

/-- The outcome of `getAllDevices` on an open handle with the tables present. -/
theorem getAllDevices_open (nm : String) (db : Sqlite3) (htab : db.tables = true) :
    DatabaseManager.getAllDevices (DatabaseManager.mk nm (some db)) =
      db.devices.map readDevice := by
  simp [DatabaseManager.getAllDevices, sqlite3_prepare_v2, htab, deviceRows]

/-- The reading `sampleRun` gives the base text its SQL meaning. -/
theorem sampleRun_readsBaseQuery : readsBaseQuery sampleRun := by
  intro db htab
  exact ⟨innerJoin db, by simp [sampleRun, htab], List.Perm.refl _⟩

/-- C15 (filtered read with no filters agrees with read-all): for a reading of
the assembled text that gives the base text its SQL meaning and an initialized
store, when the `location_id` of every device is the id of a location,
`getDevicesWithFilters` with six empty strings returns the devices of
`getAllDevices`, each once; and a device whose `location_id` is null or the id
of no location is returned by `getAllDevices` while no device returned by
`getDevicesWithFilters` has its serial number. -/
theorem filtered_read_without_filters (run : String → Sqlite3 → Option (List DeviceRow))
    (self : DatabaseManager) (hinit : self.initialized) (hrun : readsBaseQuery run) :
    (self.referentialIntegrity →
      (self.getDevicesWithFilters run "" "" "" "" "" "").Perm self.getAllDevices) ∧
    (∀ d ∈ self.devices, (∀ l ∈ self.locations, d.location_id ≠ some l.id) →
      readDevice d ∈ self.getAllDevices ∧
      ∀ x ∈ self.getDevicesWithFilters run "" "" "" "" "" "",
        x.serial_number ≠ d.serial_number) := by
  rcases self with ⟨nm, _ | db⟩
  · exact absurd hinit (by simp [DatabaseManager.initialized])
  · obtain ⟨-, htab, -, hser, hlocs, -⟩ : db.ready := hinit
    obtain ⟨rows, hrows, hperm⟩ := hrun db htab
    have hq : filterQuery "" "" "" "" "" "" = baseQuery := by decide
    have hfil : DatabaseManager.getDevicesWithFilters run (DatabaseManager.mk nm (some db))
        "" "" "" "" "" "" = rows.map readDevice := by
      simp only [DatabaseManager.getDevicesWithFilters, hq, hrows]
    rw [hfil, getAllDevices_open nm db htab]
    simp only [DatabaseManager.referentialIntegrity, DatabaseManager.devices,
      DatabaseManager.locations]
    refine ⟨?_, ?_⟩
    · intro hri
      rw [innerJoin_eq_devices db hlocs hri] at hperm
      exact hperm.map readDevice
    · intro d hd hdang
      refine ⟨List.mem_map_of_mem _ hd, ?_⟩
      intro x hx hxs
      obtain ⟨r, hr, rfl⟩ := List.mem_map.mp hx
      have hrj : r ∈ innerJoin db := hperm.subset hr
      obtain ⟨hrd, l, hl, hrl⟩ := (mem_innerJoin db r).mp hrj
      have hrd_eq : r = d := List.inj_on_of_nodup_map hser hrd hd hxs
      rw [hrd_eq] at hrl
      exact hdang l hl hrl

/-- The agreement of C15 on `sampleStore`, and the exclusion on
`unassignedStore`, whose second device has no location. -/
theorem filtered_read_without_filters_witness :
    sampleStore.initialized ∧ unassignedStore.initialized ∧ readsBaseQuery sampleRun ∧
    (sampleStore.getDevicesWithFilters sampleRun "" "" "" "" "" "").Perm
      sampleStore.getAllDevices ∧
    readDevice (DeviceRow.mk 2 "Sensor2" "humidity" "SN-002" "2024-02-02" none) ∈
      unassignedStore.getAllDevices ∧
    ∀ x ∈ unassignedStore.getDevicesWithFilters sampleRun "" "" "" "" "" "",
      x.serial_number ≠ "SN-002" :=
  ⟨by decide, by decide, sampleRun_readsBaseQuery,
    (filtered_read_without_filters sampleRun sampleStore (by decide)
      sampleRun_readsBaseQuery).1 (by decide),
    ((filtered_read_without_filters sampleRun unassignedStore (by decide)
      sampleRun_readsBaseQuery).2
      (DeviceRow.mk 2 "Sensor2" "humidity" "SN-002" "2024-02-02" none) (by decide)
      (by decide)).1,
    ((filtered_read_without_filters sampleRun unassignedStore (by decide)
      sampleRun_readsBaseQuery).2
      (DeviceRow.mk 2 "Sensor2" "humidity" "SN-002" "2024-02-02" none) (by decide)
      (by decide)).2⟩

/-- A value `std::stoi` returns is in the range of `int`. -/
theorem stoi_isInt (s : String) (v : Int) (h : stoi s = some v) : isInt v := by
  unfold stoi at h
  simp only at h
  split_ifs at h with h1 h2 h3 h4 <;>
    (simp only [Option.some.injEq] at h; subst h; assumption)

/-- What `deviceWithId` finds is a row of the table with the id asked for, and
it finds nothing exactly when no row has that id (in a consistent state). -/
theorem deviceWithId_spec (self : DatabaseManager) (id : Int) (hc : self.consistent) :
    (∀ r, self.deviceWithId id = some r → r ∈ self.devices ∧ r.id = id) ∧
    (self.deviceWithId id = none ↔ ∀ r ∈ self.devices, r.id ≠ id) := by
  rcases self with ⟨nm, _ | db⟩
  · simp [DatabaseManager.deviceWithId, DatabaseManager.devices]
  · simp only [DatabaseManager.deviceWithId, DatabaseManager.devices]
    by_cases htab : db.tables = true
    · simp only [htab, if_true, List.find?_eq_none, beq_iff_eq]
      refine ⟨?_, ?_⟩
      · intro r hr
        have h1 := List.find?_some hr
        exact ⟨List.mem_of_find?_eq_some hr, (beq_iff_eq.mp h1).symm⟩
      · constructor
        · intro h r hr hid; exact h r hr hid.symm
        · intro h r hr hid; exact h r hr hid.symm
    · have hrows : db.devices = [] := by
        rcases (show db.tables = true ∨ (db.devices = [] ∧ db.locations = []) from hc) with h | h
        · exact absurd h htab
        · exact h.1
      simp [htab, hrows]

/-- The outcome of `getDevice` in terms of `deviceWithId`, in any state. -/
theorem getDevice_eq (self : DatabaseManager) (id : Int) :
    self.getDevice id = (self.deviceWithId (toInt32 id)).map readDevice := by
  rcases self with ⟨nm, _ | db⟩
  · rfl
  · by_cases htab : db.tables = true
    · rw [getDevice_open nm db id htab]
      simp [DatabaseManager.deviceWithId, htab, head?_filter_eq_find?]
    · simp [DatabaseManager.getDevice, DatabaseManager.deviceWithId, sqlite3_prepare_v2, htab]

/-- C13 as stated fails: on `sampleServer`, whose store is initialized and holds
no device with serial number `SN-009`, a create request without `location_id`,
and one with a null `location_id`, is answered 500 and stores no row. -/
theorem handleAddDevice_without_location_fails :
    sampleStore.initialized ∧
    (sampleServer.handleAddDevice freshResponse
      (Request.mk [] []
        (some (JsonValue.object
          [("name", JsonValue.string "Sensor9"), ("type", JsonValue.string "humidity"),
           ("serial_number", JsonValue.string "SN-009"),
           ("creation_date", JsonValue.string "2024-09-09")])))).map
      (fun r => (r.1.status, r.2.database_)) = some (500, sampleStore) ∧
    (sampleServer.handleAddDevice freshResponse
      (Request.mk [] []
        (some (JsonValue.object
          [("name", JsonValue.string "Sensor9"), ("type", JsonValue.string "humidity"),
           ("serial_number", JsonValue.string "SN-009"),
           ("creation_date", JsonValue.string "2024-09-09"),
           ("location_id", JsonValue.null)])))).map
      (fun r => (r.1.status, r.2.database_)) = some (500, sampleStore) := by
  decide

/-- The answer of `handleAddDevice` in terms of the outcome of `addDevice`, for
a body whose five members are readable. -/
theorem handleAddDevice_eq (self : ServerManager) (res : Response) (req : Request)
    (jsonRequest : JsonValue) (name type serial_number creation_date : String)
    (location_id : Int)
    (hbody : req.body = some jsonRequest)
    (hname : (jsonRequest.get "name").bind JsonValue.asString = some name)
    (htype : (jsonRequest.get "type").bind JsonValue.asString = some type)
    (hserial : (jsonRequest.get "serial_number").bind JsonValue.asString = some serial_number)
    (hdate : (jsonRequest.get "creation_date").bind JsonValue.asString = some creation_date)
    (hloc : (jsonRequest.get "location_id").bind JsonValue.asInt = some location_id) :
    self.handleAddDevice res req =
      some (if (self.database_.addDevice
          (Device.mk 0 name type serial_number creation_date location_id)).1 = true then
        (((res.set_status 201).set_header "Content-Type" "application/json").set_body
          (Body.text "\x7b\"message\": \"Device added successfully.\"\x7d\n"),
          { self with database_ := (self.database_.addDevice
            (Device.mk 0 name type serial_number creation_date location_id)).2 })
      else
        ((res.set_status 500).set_body
          (Body.text "\x7b\"error\": \"Failed to add device.\"\x7d\n"),
          { self with database_ := (self.database_.addDevice
            (Device.mk 0 name type serial_number creation_date location_id)).2 })) := by
  simp only [ServerManager.handleAddDevice, hbody, hname, htype, hserial, hdate, hloc]
  split_ifs <;> rfl

/-- C13 as amended (a create without a location): a `location_id` that is
absent or null is read as 0. In an initialized store, for a body with readable
name, type, serial number and creation date, `handleAddDevice` answers 500 and
leaves the store as it was when no location row has id 0; when one has, the
serial number (up to its first NUL character) is unused and a device rowid is
left, it answers 201 and appends one device row with `location_id` 0, holding
the four strings up to their first NUL character. -/
theorem handleAddDevice_absent_location (self : ServerManager) (res : Response) (req : Request)
    (jsonRequest : JsonValue) (name type serial_number creation_date : String)
    (hinit : self.database_.initialized)
    (hbody : req.body = some jsonRequest)
    (hname : (jsonRequest.get "name").bind JsonValue.asString = some name)
    (htype : (jsonRequest.get "type").bind JsonValue.asString = some type)
    (hserial : (jsonRequest.get "serial_number").bind JsonValue.asString = some serial_number)
    (hdate : (jsonRequest.get "creation_date").bind JsonValue.asString = some creation_date)
    (hloc : jsonRequest.get "location_id" = some JsonValue.null) :
    ((∀ l ∈ self.database_.locations, l.id ≠ 0) →
      self.handleAddDevice res req =
        some ((res.set_status 500).set_body
          (Body.text "\x7b\"error\": \"Failed to add device.\"\x7d\n"), self)) ∧
    ((∃ l ∈ self.database_.locations, l.id = 0) →
      (∀ r ∈ self.database_.devices, r.serial_number ≠ c_str serial_number) →
      self.database_.lastDeviceRowid < INT64_MAX →
      ∃ r, self.handleAddDevice res req = some r ∧ r.1.status = 201 ∧
        r.2.database_.devices = self.database_.devices ++
          [DeviceRow.mk (self.database_.lastDeviceRowid + 1) (c_str name) (c_str type)
            (c_str serial_number) (c_str creation_date) (some 0)] ∧
        r.2.database_.locations = self.database_.locations) := by
  have hint : (jsonRequest.get "location_id").bind JsonValue.asInt = some 0 := by
    rw [hloc]; rfl
  have hcall := handleAddDevice_eq self res req jsonRequest name type serial_number
    creation_date 0 hbody hname htype hserial hdate hint
  rcases self with ⟨c, ⟨nm, _ | db⟩, mux, serving⟩
  · exact absurd hinit (by simp [DatabaseManager.initialized])
  · obtain ⟨hfk, htab, -, -, -, -⟩ : db.ready := hinit
    simp only [DatabaseManager.devices, DatabaseManager.locations,
      DatabaseManager.lastDeviceRowid] at hcall ⊢
    refine ⟨?_, ?_⟩
    · intro hnone
      have hfkh : fkHolds db.locations (some 0) = false := by
        simp only [fkHolds, List.any_eq_false, beq_iff_eq]
        exact fun l hl => hnone l hl
      have hadd : DatabaseManager.addDevice (DatabaseManager.mk nm (some db))
          (Device.mk 0 name type serial_number creation_date 0) =
          (false, DatabaseManager.mk nm (some db)) := by
        rw [addDevice_open nm db _ htab]
        cases nextRowid db.devices_seq (db.devices.map (fun r => r.id)) with
        | none => rfl
        | some id =>
          simp only [hfkh, hfk, Bool.not_false, Bool.and_true, if_true]
          split_ifs <;> rfl
      rw [hcall, hadd]
      rfl
    · intro hsome hser hroom
      have hfkh : fkHolds db.locations (some 0) = true := by
        simp only [fkHolds, List.any_eq_true, beq_iff_eq]
        exact hsome
      have hany : db.devices.any (fun r => r.serial_number == c_str serial_number) = false := by
        simp only [List.any_eq_false, beq_iff_eq]
        exact fun r hr => hser r hr
      have hadd : DatabaseManager.addDevice (DatabaseManager.mk nm (some db))
          (Device.mk 0 name type serial_number creation_date 0) =
          (true, DatabaseManager.mk nm (some { db with
            devices := db.devices ++
              [DeviceRow.mk (lastRowid db.devices_seq (db.devices.map (fun r => r.id)) + 1)
                (c_str name) (c_str type) (c_str serial_number) (c_str creation_date) (some 0)]
            devices_seq := lastRowid db.devices_seq (db.devices.map (fun r => r.id)) + 1 })) := by
        rw [addDevice_open nm db _ htab, nextRowid_of_lt _ _ hroom]
        simp only [hany, hfkh, hfk, Bool.not_true, Bool.and_false, Bool.false_eq_true, if_false]
      rw [hcall, hadd]
      exact ⟨_, rfl, rfl, rfl, rfl⟩

/-- The refusal of C13 on `sampleServer`, and the success on
`zeroLocationServer`, whose only location has id 0. -/
theorem handleAddDevice_absent_location_witness :
    sampleServer.database_.initialized ∧ zeroLocationServer.database_.initialized ∧
    sampleServer.handleAddDevice freshResponse
      (Request.mk [] []
        (some (JsonValue.object
          [("name", JsonValue.string "Sensor9"), ("type", JsonValue.string "humidity"),
           ("serial_number", JsonValue.string "SN-009"),
           ("creation_date", JsonValue.string "2024-09-09")]))) =
      some ((freshResponse.set_status 500).set_body
        (Body.text "\x7b\"error\": \"Failed to add device.\"\x7d\n"), sampleServer) ∧
    ∃ r, zeroLocationServer.handleAddDevice freshResponse
        (Request.mk [] []
          (some (JsonValue.object
            [("name", JsonValue.string "Sensor9"), ("type", JsonValue.string "humidity"),
             ("serial_number", JsonValue.string "SN-009"),
             ("creation_date", JsonValue.string "2024-09-09")]))) = some r ∧
      r.1.status = 201 ∧
      r.2.database_.devices = zeroLocationServer.database_.devices ++
        [DeviceRow.mk (zeroLocationServer.database_.lastDeviceRowid + 1) (c_str "Sensor9")
          (c_str "humidity") (c_str "SN-009") (c_str "2024-09-09") (some 0)] ∧
      r.2.database_.locations = zeroLocationServer.database_.locations :=
  ⟨by decide, by decide,
    (handleAddDevice_absent_location sampleServer freshResponse
      (Request.mk [] []
        (some (JsonValue.object
          [("name", JsonValue.string "Sensor9"), ("type", JsonValue.string "humidity"),
           ("serial_number", JsonValue.string "SN-009"),
           ("creation_date", JsonValue.string "2024-09-09")])))
      (JsonValue.object
          [("name", JsonValue.string "Sensor9"), ("type", JsonValue.string "humidity"),
           ("serial_number", JsonValue.string "SN-009"),
           ("creation_date", JsonValue.string "2024-09-09")])
      "Sensor9" "humidity" "SN-009" "2024-09-09"
      (by decide) rfl rfl rfl rfl rfl rfl).1 (by decide),
    (handleAddDevice_absent_location zeroLocationServer freshResponse
      (Request.mk [] []
        (some (JsonValue.object
          [("name", JsonValue.string "Sensor9"), ("type", JsonValue.string "humidity"),
           ("serial_number", JsonValue.string "SN-009"),
           ("creation_date", JsonValue.string "2024-09-09")])))
      (JsonValue.object
          [("name", JsonValue.string "Sensor9"), ("type", JsonValue.string "humidity"),
           ("serial_number", JsonValue.string "SN-009"),
           ("creation_date", JsonValue.string "2024-09-09")])
      "Sensor9" "humidity" "SN-009" "2024-09-09"
      (by decide) rfl rfl rfl rfl rfl rfl).2
      ⟨LocationRow.mk 0 "Depot" "room", by decide, rfl⟩ (by decide) (by decide)⟩

/-- C16 as stated fails: on `sampleServer` a create request for a location with
an empty body is answered 201 and stores a location row with empty name and
type, and a create request for a device that omits name and type is answered
201 and stores a device row with empty name and type. -/
theorem create_stores_empty_name :
    sampleStore.initialized ∧
    (sampleServer.handleAddLocation freshResponse
      (Request.mk [] [] (some (JsonValue.object [])))).map
      (fun r => (r.1.status, r.2.database_.locations)) =
        some (201, [LocationRow.mk 1 "Lab" "room", LocationRow.mk 2 "" ""]) ∧
    (sampleServer.handleAddDevice freshResponse
      (Request.mk [] []
        (some (JsonValue.object
          [("serial_number", JsonValue.string "SN-009"),
           ("creation_date", JsonValue.string "2024-09-09"),
           ("location_id", JsonValue.int 1)])))).map
      (fun r => (r.1.status, r.2.database_.devices)) =
        some (201, [DeviceRow.mk 1 "Sensor1" "temperature" "SN-001" "2024-01-01" (some 1),
          DeviceRow.mk 2 "" "" "SN-009" "2024-09-09" (some 1)]) := by
  decide

/-- C16 as amended (names and types are stored as read): the create handlers
store name and type as `asString()` reads them from the body, up to the first
NUL character, which is the empty string for a member that is omitted, null or
empty; there is no check that they are non-empty. In an initialized store with
a location rowid left, `handleAddLocation` answers 201 and appends the
location row with the two strings read; with a device rowid left,
`handleAddDevice` answers 201 and appends the device row with them when the
serial number is unused and `location_id` is the id of a location. -/
theorem create_handlers_store_names_as_read (self : ServerManager) (res : Response)
    (req : Request) (jsonRequest : JsonValue) (name type : String)
    (hinit : self.database_.initialized)
    (hbody : req.body = some jsonRequest)
    (hname : (jsonRequest.get "name").bind JsonValue.asString = some name)
    (htype : (jsonRequest.get "type").bind JsonValue.asString = some type) :
    (JsonValue.null.asString = some "" ∧ (JsonValue.string "").asString = some "" ∧
      (JsonValue.object []).get "name" = some JsonValue.null ∧ c_str "" = "") ∧
    (self.database_.lastLocationRowid < INT64_MAX →
      ∃ r, self.handleAddLocation res req = some r ∧ r.1.status = 201 ∧
        (∀ l ∈ self.database_.locations, l.id ≠ self.database_.lastLocationRowid + 1) ∧
        r.2.database_.locations = self.database_.locations ++
          [LocationRow.mk (self.database_.lastLocationRowid + 1) (c_str name) (c_str type)] ∧
        r.2.database_.devices = self.database_.devices) ∧
    (∀ (serial_number creation_date : String) (location_id : Int),
      (jsonRequest.get "serial_number").bind JsonValue.asString = some serial_number →
      (jsonRequest.get "creation_date").bind JsonValue.asString = some creation_date →
      (jsonRequest.get "location_id").bind JsonValue.asInt = some location_id →
      (∀ r ∈ self.database_.devices, r.serial_number ≠ c_str serial_number) →
      (∃ l ∈ self.database_.locations, l.id = location_id) →
      self.database_.lastDeviceRowid < INT64_MAX →
      ∃ r, self.handleAddDevice res req = some r ∧ r.1.status = 201 ∧
        r.2.database_.devices = self.database_.devices ++
          [DeviceRow.mk (self.database_.lastDeviceRowid + 1) (c_str name) (c_str type)
            (c_str serial_number) (c_str creation_date) (some location_id)] ∧
        r.2.database_.locations = self.database_.locations) := by
  rcases self with ⟨c, ⟨nm, _ | db⟩, mux, serving⟩
  · exact absurd hinit (by simp [DatabaseManager.initialized])
  · obtain ⟨hfk, htab, -, -, -, -⟩ : db.ready := hinit
    simp only [DatabaseManager.devices, DatabaseManager.locations,
      DatabaseManager.lastDeviceRowid, DatabaseManager.lastLocationRowid]
    refine ⟨⟨rfl, rfl, rfl, by decide⟩, ?_, ?_⟩
    · intro hroom
      obtain ⟨vn, hvn, hvn2⟩ := Option.bind_eq_some.mp hname
      obtain ⟨vt, hvt, hvt2⟩ := Option.bind_eq_some.mp htype
      have hnext := nextRowid_of_lt _ _ hroom
      obtain ⟨-, -, hlast⟩ := lt_nextRowid _ _ _ hnext
      simp only [ServerManager.handleAddLocation, hbody, hvn, hvn2, hvt, hvt2,
        Option.bind_eq_bind, Option.some_bind, addLocation_open nm db _ htab, hnext, if_true]
      refine ⟨_, rfl, rfl, ?_, rfl, rfl⟩
      intro l hl
      exact ne_of_lt (hlast l.id (List.mem_map_of_mem _ hl))
    · intro serial_number creation_date location_id hserial hdate hloc hser hex hroom
      have hcall := handleAddDevice_eq
        (ServerManager.mk c (DatabaseManager.mk nm (some db)) mux serving) res req jsonRequest
        name type serial_number creation_date location_id hbody hname htype hserial hdate hloc
      have hany : db.devices.any (fun r => r.serial_number == c_str serial_number) = false := by
        simp only [List.any_eq_false, beq_iff_eq]
        exact fun r hr => hser r hr
      have hfkh : fkHolds db.locations (some location_id) = true := by
        simp only [fkHolds, List.any_eq_true, beq_iff_eq]
        exact hex
      have hadd : DatabaseManager.addDevice (DatabaseManager.mk nm (some db))
          (Device.mk 0 name type serial_number creation_date location_id) =
          (true, DatabaseManager.mk nm (some { db with
            devices := db.devices ++
              [DeviceRow.mk (lastRowid db.devices_seq (db.devices.map (fun r => r.id)) + 1)
                (c_str name) (c_str type) (c_str serial_number) (c_str creation_date)
                (some location_id)]
            devices_seq := lastRowid db.devices_seq (db.devices.map (fun r => r.id)) + 1 })) := by
        rw [addDevice_open nm db _ htab, nextRowid_of_lt _ _ hroom]
        simp only [hany, hfkh, hfk, Bool.not_true, Bool.and_false, Bool.false_eq_true, if_false]
      simp only at hcall
      rw [hcall, hadd]
      exact ⟨_, rfl, rfl, rfl, rfl⟩

/-- The empty body of C16 on `sampleServer`: name and type read as the empty
string and a location row with both empty is stored. -/
theorem create_handlers_store_names_as_read_witness :
    sampleServer.database_.initialized ∧ sampleServer.database_.lastLocationRowid < INT64_MAX ∧
    ∃ r, sampleServer.handleAddLocation freshResponse
        (Request.mk [] [] (some (JsonValue.object []))) = some r ∧ r.1.status = 201 ∧
      (∀ l ∈ sampleServer.database_.locations,
        l.id ≠ sampleServer.database_.lastLocationRowid + 1) ∧
      r.2.database_.locations = sampleServer.database_.locations ++
        [LocationRow.mk (sampleServer.database_.lastLocationRowid + 1) (c_str "") (c_str "")] ∧
      r.2.database_.devices = sampleServer.database_.devices :=
  ⟨by decide, by decide,
    (create_handlers_store_names_as_read sampleServer freshResponse
      (Request.mk [] [] (some (JsonValue.object []))) (JsonValue.object []) "" ""
      (by decide) rfl rfl rfl).2.1 (by decide)⟩

end RestApi
